import Mathlib

/-!
Verification of the RedOpSync import engine (shallow embedding).

The definitions below are translated from the Python sources under
`src/api/app/services/` (subnet.py, nmap_import.py, gowitness_import.py,
text_import.py, masscan_import.py, whois_import.py, gowitness_parser.py,
nmap_parser.py, import_dispatcher.py) and `src/api/app/api/routes/projects.py`.
The persistent store is modelled as lists of rows inside a `Db` record;
SQLAlchemy `.first()` queries become `List.find?` in insertion order, and
fresh primary keys come from a `nextId` counter.  Python strings are Lean
`String`s; all text helpers below are written by structural recursion on the
underlying character list so that concrete runs reduce inside the kernel.
-/

namespace RedOpSync

/-- Characters Python `str.strip()` removes (ASCII whitespace model). -/
def isSpaceChar (c : Char) : Bool :=
  c = ' ' ∨ c = '\t' ∨ c = '\n' ∨ c = '\r' ∨ c = '\x0b' ∨ c = '\x0c'

/-- Model of Python `str.strip()`. -/
def pyStrip (s : String) : String :=
  ⟨((s.data.dropWhile isSpaceChar).reverse.dropWhile isSpaceChar).reverse⟩

/-- Model of Python `str.lower()` (ASCII case folding). -/
def pyLower (s : String) : String :=
  ⟨s.data.map Char.toLower⟩

/-- Model of Python slicing `s[:n]` on text. -/
def pyTake (s : String) (n : Nat) : String :=
  ⟨s.data.take n⟩

/-- Model of Python `s.startswith(p)`. -/
def pyStartsWith (s p : String) : Bool :=
  p.data.isPrefixOf s.data

/-- Suffix test by structural recursion (model of Python `s.endswith(p)`). -/
def pyEndsWith (s p : String) : Bool :=
  p.data.reverse.isPrefixOf s.data.reverse

/-- Substring search: `needle` occurs somewhere in `hay` (Python `in`). -/
def listContainsSub (needle : List Char) : List Char → Bool
  | [] => needle.isEmpty
  | c :: rest => needle.isPrefixOf (c :: rest) || listContainsSub needle rest

/-- Model of Python `needle in hay` on strings. -/
def pyContains (hay needle : String) : Bool :=
  listContainsSub needle.data hay.data

/-- Fuelled worker for splitting on a (non-empty) separator, scanning left to
right without overlap, as Python `str.split(sep)` does. -/
def splitSepAux (sep : List Char) : Nat → List Char → List Char → List (List Char)
  | 0, l, acc => [acc.reverse ++ l]
  | _ + 1, [], acc => [acc.reverse]
  | fuel + 1, c :: rest, acc =>
    if sep.isPrefixOf (c :: rest) then
      acc.reverse :: splitSepAux sep fuel ((c :: rest).drop sep.length) []
    else
      splitSepAux sep fuel rest (c :: acc)

/-- Model of Python `s.split(sep)` for a non-empty separator. -/
def pySplit (s sep : String) : List String :=
  (splitSepAux sep.data s.data.length s.data []).map fun l => ⟨l⟩

/-- Model of Python `sep.join(parts)`. -/
def pyJoin (sep : String) (parts : List String) : String :=
  ⟨(parts.map String.data).intersperse sep.data |>.foldr (· ++ ·) []⟩

/-- Model of Python `s.replace(old, new)` for a non-empty `old`. -/
def pyReplace (s old new : String) : String :=
  pyJoin new (pySplit s old)

/-- Python truthiness of an optional string (`None` and `""` are falsy). -/
def optTruthy : Option String → Bool
  | none => false
  | some s => ¬ s.data.isEmpty

/-- Python truthiness of a plain string. -/
def strTruthy (s : String) : Bool :=
  ¬ s.data.isEmpty

/-! ## IP address parsing

Model of the parts of Python `ipaddress` used by `subnet.py`:
`ip_address(s)` accepts dotted-quad IPv4 (1-3 ASCII digits per octet, no
leading zeros, each ≤ 255) or RFC 4291 IPv6 (1-4 hex digit groups, at most
one `::`, optional embedded IPv4 tail).  Scoped IPv6 addresses (`%zone`) are
not modelled.  `str()` of an IPv6 network compresses the leftmost longest
run of two or more zero groups, as CPython does. -/

/-- Decimal value of an all-digit string. -/
def digitsToNat (s : String) : Nat :=
  s.data.foldl (fun n c => n * 10 + (c.toNat - 48)) 0

/-- One IPv4 octet, Python `ipaddress` rules: 1-3 ASCII digits, no leading
zero, value at most 255. -/
def parseOctet (s : String) : Option Nat :=
  if s.data.isEmpty then none
  else if ¬ s.data.all Char.isDigit then none
  else if s.data.length > 3 then none
  else if s.data.length > 1 ∧ s.data.head? = some '0' then none
  else if digitsToNat s ≤ 255 then some (digitsToNat s) else none

/-- Dotted-quad IPv4 parse. -/
def parseIPv4 (s : String) : Option (Nat × Nat × Nat × Nat) :=
  match pySplit s "." with
  | [a, b, c, d] =>
    match parseOctet a, parseOctet b, parseOctet c, parseOctet d with
    | some x, some y, some z, some w => some (x, y, z, w)
    | _, _, _, _ => none
  | _ => none

/-- Value of a hexadecimal digit. -/
def hexDigitVal (c : Char) : Option Nat :=
  if c.isDigit then some (c.toNat - 48)
  else if 'a' ≤ c ∧ c ≤ 'f' then some (c.toNat - 87)
  else if 'A' ≤ c ∧ c ≤ 'F' then some (c.toNat - 55)
  else none

/-- One IPv6 group: 1-4 hex digits. -/
def parseHexGroup (s : String) : Option Nat :=
  if s.data.isEmpty ∨ s.data.length > 4 then none
  else s.data.foldl
    (fun acc c => match acc, hexDigitVal c with
      | some a, some v => some (a * 16 + v)
      | _, _ => none)
    (some 0)

/-- Parse a list of hex groups. -/
def parseHexParts : List String → Option (List Nat)
  | [] => some []
  | p :: rest =>
    match parseHexGroup p, parseHexParts rest with
    | some v, some vs => some (v :: vs)
    | _, _ => none

/-- Parse hex groups allowing an embedded IPv4 address as the final part
(which contributes two 16-bit groups). -/
def parseTailParts (parts : List String) : Option (List Nat) :=
  match parts.getLast? with
  | none => some []
  | some last =>
    if pyContains last "." then
      match parseHexParts parts.dropLast, parseIPv4 last with
      | some hs, some (a, b, c, d) => some (hs ++ [a * 256 + b, c * 256 + d])
      | _, _ => none
    else parseHexParts parts

/-- IPv6 parse to eight 16-bit groups. -/
def parseIPv6 (s : String) : Option (List Nat) :=
  if pyContains s "%" then none
  else
    match pySplit s "::" with
    | [whole] =>
      match parseTailParts (pySplit whole ":") with
      | some gs => if gs.length = 8 then some gs else none
      | none => none
    | [l, r] =>
      let lgs := if strTruthy l then parseHexParts (pySplit l ":") else some []
      let rgs := if strTruthy r then parseTailParts (pySplit r ":") else some []
      match lgs, rgs with
      | some lg, some rg =>
        if lg.length + rg.length ≤ 7 then
          some (lg ++ List.replicate (8 - lg.length - rg.length) 0 ++ rg)
        else none
      | _, _ => none
    | _ => none

/-- Lowercase hex rendering of a group. -/
def hexStr (n : Nat) : String :=
  ⟨Nat.toDigits 16 n⟩

/-- Maximal runs of zero groups as (start index, length) pairs. -/
def zeroRunsFrom : List Nat → Nat → List (Nat × Nat)
  | [], _ => []
  | g :: rest, i =>
    let tailRuns := zeroRunsFrom rest (i + 1)
    if g = 0 then
      match tailRuns with
      | (s, l) :: more => if s = i + 1 then (i, l + 1) :: more else (i, 1) :: (s, l) :: more
      | [] => [(i, 1)]
    else tailRuns

/-- Leftmost longest zero run of length at least two (CPython keeps the first
run on ties and only compresses runs longer than one group). -/
def bestZeroRun (gs : List Nat) : Option (Nat × Nat) :=
  (zeroRunsFrom gs 0).foldl
    (fun best r =>
      match best with
      | none => if r.2 > 1 then some r else none
      | some b => if r.2 > b.2 then some r else some b)
    none

/-- Compressed textual form of eight IPv6 groups (CPython `str`). -/
def v6GroupsString (gs : List Nat) : String :=
  let parts := gs.map hexStr
  match bestZeroRun gs with
  | some (s, l) => pyJoin ":" (parts.take s) ++ "::" ++ pyJoin ":" (parts.drop (s + l))
  | none => pyJoin ":" parts

/-- From `subnet.py` `_cidr_for_ip`: containing /24 for IPv4, /64 for IPv6,
`none` for the empty string, the sentinel `"unresolved"`, or an invalid IP. -/
def cidrForIp (ipStr : String) : Option String :=
  let s := pyLower (pyStrip ipStr)
  if ¬ strTruthy s ∨ s = "unresolved" then none
  else
    match parseIPv4 s with
    | some (a, b, c, _) =>
      some (Nat.repr a ++ "." ++ Nat.repr b ++ "." ++ Nat.repr c ++ ".0/24")
    | none =>
      match parseIPv6 s with
      | some gs => some (v6GroupsString (gs.take 4 ++ [0, 0, 0, 0]) ++ "/64")
      | none => none

/-! ## Persistent store model

Rows of the tables touched by the importers (`models.py` plus the columns
added by later migrations: `host.whois_data`, `port.scan_metadata`,
`port.scanned_at`, `evidence.source`, `evidence.source_file`).  JSON blobs
are modelled as association lists.  `Db.nextId` supplies fresh primary keys. -/

structure Subnet where
  id : Nat
  projectId : Nat
  cidr : String
  name : Option String
deriving DecidableEq

structure Host where
  id : Nat
  projectId : Nat
  subnetId : Option Nat
  ip : String
  dnsName : Option String
  status : Option String
  whoisData : Option (List (String × String))
deriving DecidableEq

structure Port where
  id : Nat
  hostId : Nat
  protocol : String
  number : Nat
  state : Option String
  serviceName : Option String
  serviceVersion : Option String
  banner : Option String
  discoveredBy : Option String
  scanMetadata : Option (List (String × String))
  scannedAt : Option Int
deriving DecidableEq

structure Evidence where
  id : Nat
  projectId : Nat
  hostId : Option Nat
  portId : Option Nat
  filename : String
  caption : Option String
  sha256 : Option String
  storedPath : Option String
  source : Option String
  sourceFile : Option String
deriving DecidableEq

structure Db where
  subnets : List Subnet
  hosts : List Host
  ports : List Port
  evidence : List Evidence
  nextId : Nat
deriving DecidableEq

/-- Replace the host row with the given id (SQLAlchemy mutation + commit). -/
def Db.updateHost (db : Db) (h : Host) : Db :=
  { db with hosts := db.hosts.map fun x => if x.id = h.id then h else x }

/-- Replace the port row with the given id. -/
def Db.updatePort (db : Db) (p : Port) : Db :=
  { db with ports := db.ports.map fun x => if x.id = p.id then p else x }

/-- From `subnet.py` `find_or_create_subnet_for_ip`: bucket the IP via
`cidrForIp`, reuse an existing `(project, cidr)` subnet or append a new one. -/
def findOrCreateSubnetForIp (db : Db) (projectId : Nat) (ip : String) :
    Option Nat × Db :=
  match cidrForIp ip with
  | none => (none, db)
  | some cidr =>
    match db.subnets.find? (fun sn => decide (sn.projectId = projectId ∧ sn.cidr = cidr)) with
    | some sn => (some sn.id, db)
    | none =>
      let sn : Subnet := { id := db.nextId, projectId := projectId, cidr := cidr, name := none }
      (some db.nextId,
        { db with subnets := db.subnets ++ [sn], nextId := db.nextId + 1 })

/-! ## Parsed-record shapes (parser outputs fed to the importers) -/

structure NmapScript where
  id : String
  output : String
deriving DecidableEq

structure NmapPort where
  portId : Nat
  protocol : String
  state : String
  serviceName : Option String
  product : Option String
  version : Option String
  extrainfo : Option String
  ostype : Option String
  tunnel : Option String
  scripts : List NmapScript
deriving DecidableEq

structure NmapHost where
  ip : Option String
  hostname : Option String
  hostnames : List String
  status : String
  ports : List NmapPort
  isUnresolved : Bool
deriving DecidableEq

structure NmapImportMetadata where
  nmapVersion : String
  args : String
  scanStart : String
  scanEnd : String
deriving DecidableEq

/-- `gowitness_parser.py` `ParsedURL`. -/
structure ParsedURL where
  host : String
  port : Nat
  protocol : String
  isIp : Bool
  hostname : Option String
  rawUrl : String
deriving DecidableEq

/-- `text_import.py` `TextHost`. -/
structure TextHost where
  ip : String
  hostname : Option String
deriving DecidableEq

/-- Python `(x or "").strip() or None`. -/
def normStrOpt (o : Option String) : Option String :=
  match o with
  | none => none
  | some d => let t := pyStrip d; if strTruthy t then some t else none

/-- From `nmap_import.py` `_host_status_from_nmap`. -/
def hostStatusFromNmap (nh : NmapHost) : String :=
  if nh.isUnresolved then "unresolved"
  else if pyLower nh.status = "up" then "online" else "offline"

/-- The `if existing:` body of `nmap_import.py` `_find_or_create_host`:
hostname update, sentinel-IP promotion with subnet recomputation, status
update only from `unknown`, and the unconditional `unresolved` stamp for a
hostname-only record.  Returns the updated row and the store (whose subnet
table may have grown). -/
def nmapUpdateExistingHost (db : Db) (projectId : Nat) (nh : NmapHost)
    (e : Host) : Host × Db :=
  let ip := match nh.ip with
    | some s => if strTruthy s then s else "unresolved"
    | none => "unresolved"
  let dns := nh.hostname
  let isUnresolved := nh.isUnresolved
  let e1 :=
    if optTruthy dns ∧ (¬ optTruthy e.dnsName ∨ e.dnsName ≠ dns) then
      { e with dnsName := dns }
    else e
  let step2 : Host × Db :=
    if e1.ip = "unresolved" ∧ ¬ isUnresolved ∧ ip ≠ "unresolved" then
      let sres := findOrCreateSubnetForIp db projectId ip
      let ex := { e1 with ip := ip }
      let ex := match sres.1 with
        | some sid => { ex with subnetId := some sid }
        | none => ex
      (ex, sres.2)
    else (e1, db)
  let e2 := step2.1
  let newStatus := hostStatusFromNmap nh
  let e3 :=
    if e2.status = none ∨ e2.status = some "unknown" then
      { e2 with status := some newStatus }
    else e2
  let e4 := if isUnresolved then { e3 with status := some "unresolved" } else e3
  (e4, step2.2)

/-- From `nmap_import.py` `_find_or_create_host`.  Returns
(host row after the call, created flag, store after the call). -/
def nmapFindOrCreateHost (db : Db) (projectId : Nat) (nh : NmapHost) :
    Host × Bool × Db :=
  let ip := match nh.ip with
    | some s => if strTruthy s then s else "unresolved"
    | none => "unresolved"
  let dns := nh.hostname
  let isUnresolved := nh.isUnresolved
  let dnsNorm := normStrOpt dns
  let existing : Option Host :=
    if ¬ isUnresolved ∧ ip ≠ "unresolved" then
      let e1 := match dnsNorm with
        | some dn =>
          db.hosts.find? fun h =>
            decide (h.projectId = projectId ∧ h.ip = ip ∧ h.dnsName = some dn)
        | none =>
          db.hosts.find? fun h =>
            decide (h.projectId = projectId ∧ h.ip = ip ∧
              (h.dnsName = none ∨ h.dnsName = some ""))
      match e1, dnsNorm with
      | none, some dn =>
        db.hosts.find? fun h =>
          decide (h.projectId = projectId ∧ h.ip = "unresolved" ∧ h.dnsName = some dn)
      | _, _ => e1
    else
      if optTruthy dns then
        match db.hosts.find? (fun h => decide (h.projectId = projectId ∧ h.dnsName = dns)) with
        | some e => some e
        | none =>
          db.hosts.find? fun h =>
            decide (h.projectId = projectId ∧ h.ip = "unresolved" ∧ h.dnsName = dns)
      else none
  match existing with
  | some e =>
    let r := nmapUpdateExistingHost db projectId nh e
    (r.1, false, r.2.updateHost r.1)
  | none =>
    let sres :=
      if ¬ isUnresolved ∧ ip ≠ "unresolved" then findOrCreateSubnetForIp db projectId ip
      else (none, db)
    let db2 := sres.2
    let h : Host :=
      { id := db2.nextId, projectId := projectId, subnetId := sres.1, ip := ip,
        dnsName := dns, status := some (hostStatusFromNmap nh), whoisData := none }
    (h, true, { db2 with hosts := db2.hosts ++ [h], nextId := db2.nextId + 1 })

/-- The `if existing:` body of `gowitness_import.py` `_find_or_create_host`:
hostname update for IP records, sentinel-IP promotion (which resets status
to `unknown`), and the hostname backfill for hostname-only records. -/
def gowitnessUpdateExistingHost (db : Db) (projectId : Nat) (parsed : ParsedURL)
    (e : Host) : Host × Db :=
  let ip := if parsed.isIp then parsed.host else "unresolved"
  let dns := if parsed.isIp then parsed.hostname else some parsed.host
  let e1 :=
    if parsed.isIp ∧ optTruthy dns ∧ (¬ optTruthy e.dnsName ∨ e.dnsName ≠ dns) then
      { e with dnsName := dns }
    else e
  let step2 : Host × Db :=
    if parsed.isIp ∧ e1.ip = "unresolved" then
      let sres := findOrCreateSubnetForIp db projectId ip
      let ex := { e1 with ip := ip }
      let ex := match sres.1 with
        | some sid => { ex with subnetId := some sid }
        | none => ex
      ({ ex with status := some "unknown" }, sres.2)
    else (e1, db)
  let e2 := step2.1
  let e3 :=
    if ¬ parsed.isIp ∧ e2.ip = "unresolved" ∧ strTruthy parsed.host then
      if ¬ optTruthy e2.dnsName then { e2 with dnsName := some parsed.host } else e2
    else e2
  (e3, step2.2)

/-- From `gowitness_import.py` `_find_or_create_host`. -/
def gowitnessFindOrCreateHost (db : Db) (projectId : Nat) (parsed : ParsedURL) :
    Host × Bool × Db :=
  let ip := if parsed.isIp then parsed.host else "unresolved"
  let dns := if parsed.isIp then parsed.hostname else some parsed.host
  let dnsNorm := normStrOpt dns
  let existing : Option Host :=
    if parsed.isIp then
      let e1 := match dnsNorm with
        | some dn =>
          db.hosts.find? fun h =>
            decide (h.projectId = projectId ∧ h.ip = ip ∧ h.dnsName = some dn)
        | none =>
          db.hosts.find? fun h =>
            decide (h.projectId = projectId ∧ h.ip = ip ∧
              (h.dnsName = none ∨ h.dnsName = some ""))
      match e1, dnsNorm with
      | none, some dn =>
        db.hosts.find? fun h =>
          decide (h.projectId = projectId ∧ h.ip = "unresolved" ∧ h.dnsName = some dn)
      | _, _ => e1
    else
      match db.hosts.find? (fun h => decide (h.projectId = projectId ∧ h.dnsName = dns)) with
      | some e => some e
      | none =>
        db.hosts.find? fun h =>
          decide (h.projectId = projectId ∧ h.ip = "unresolved" ∧ h.dnsName = dns)
  match existing with
  | some e =>
    let r := gowitnessUpdateExistingHost db projectId parsed e
    (r.1, false, r.2.updateHost r.1)
  | none =>
    let sres :=
      if parsed.isIp then findOrCreateSubnetForIp db projectId ip else (none, db)
    let db2 := sres.2
    let h : Host :=
      { id := db2.nextId, projectId := projectId, subnetId := sres.1, ip := ip,
        dnsName := dns, status := some "unknown", whoisData := none }
    (h, true, { db2 with hosts := db2.hosts ++ [h], nextId := db2.nextId + 1 })

/-- The `if existing:` body of `text_import.py` `_find_or_create_host`: the
hostname is replaced when it differs; nothing else changes. -/
def textUpdateExistingHost (th : TextHost) (e : Host) : Host :=
  if optTruthy th.hostname ∧ (¬ optTruthy e.dnsName ∨ e.dnsName ≠ th.hostname) then
    { e with dnsName := th.hostname }
  else e

/-- From `text_import.py` `_find_or_create_host`: matched by IP alone, with a
hostname fallback; a differing hostname on the matched row is replaced. -/
def textFindOrCreateHost (db : Db) (projectId : Nat) (th : TextHost) :
    Host × Bool × Db :=
  let ip := th.ip
  let dns := th.hostname
  let existing : Option Host :=
    match db.hosts.find? (fun h => decide (h.projectId = projectId ∧ h.ip = ip)) with
    | some e => some e
    | none =>
      if optTruthy dns then
        db.hosts.find? fun h => decide (h.projectId = projectId ∧ h.dnsName = dns)
      else none
  match existing with
  | some e =>
    let e1 := textUpdateExistingHost th e
    (e1, false, db.updateHost e1)
  | none =>
    let sres := findOrCreateSubnetForIp db projectId ip
    let db2 := sres.2
    let h : Host :=
      { id := db2.nextId, projectId := projectId, subnetId := sres.1, ip := ip,
        dnsName := dns, status := some "unknown", whoisData := none }
    (h, true, { db2 with hosts := db2.hosts ++ [h], nextId := db2.nextId + 1 })

/-- The `if existing:` body of `masscan_import.py` `_find_or_create_host`:
status is raised to `online` only from empty or `unknown`. -/
def masscanUpdateExistingHost (e : Host) : Host :=
  if e.status = none ∨ e.status = some "unknown" then
    { e with status := some "online" }
  else e

/-- From `masscan_import.py` `_find_or_create_host` (the IP is required to be
non-empty; an empty IP raises and is modelled as `none`). -/
def masscanFindOrCreateHost (db : Db) (projectId : Nat) (mhIp : String) :
    Option (Host × Bool × Db) :=
  let ip := pyStrip mhIp
  if ¬ strTruthy ip then none
  else
    match db.hosts.find? (fun h => decide (h.projectId = projectId ∧ h.ip = ip)) with
    | some e =>
      let e1 := masscanUpdateExistingHost e
      some (e1, false, db.updateHost e1)
    | none =>
      let sres := findOrCreateSubnetForIp db projectId ip
      let db2 := sres.2
      let h : Host :=
        { id := db2.nextId, projectId := projectId, subnetId := sres.1, ip := ip,
          dnsName := none, status := some "online", whoisData := none }
      some (h, true, { db2 with hosts := db2.hosts ++ [h], nextId := db2.nextId + 1 })

/-- From `whois_import.py` `_find_or_create_host`. -/
def whoisFindOrCreateHost (db : Db) (projectId : Nat) (ip : String) :
    Host × Bool × Db :=
  match db.hosts.find? (fun h => decide (h.projectId = projectId ∧ h.ip = ip)) with
  | some e => (e, false, db)
  | none =>
    let sres := findOrCreateSubnetForIp db projectId ip
    let db2 := sres.2
    let h : Host :=
      { id := db2.nextId, projectId := projectId, subnetId := sres.1, ip := ip,
        dnsName := none, status := some "unknown", whoisData := none }
    (h, true, { db2 with hosts := db2.hosts ++ [h], nextId := db2.nextId + 1 })

/-- Per-record body of `whois_import.py` `run_whois_import`: find or create the
host by IP, then assign `host.whois_data = whois_data` unconditionally. -/
def whoisImportRecord (db : Db) (projectId : Nat) (ip : String)
    (whoisData : List (String × String)) : Host × Bool × Db :=
  let r := whoisFindOrCreateHost db projectId ip
  let h2 := { r.1 with whoisData := some whoisData }
  (h2, r.2.1, r.2.2.updateHost h2)

/-! ## Port reconciliation -/

/-- From `nmap_import.py` `_build_service_banner`. -/
def buildServiceBanner (p : NmapPort) : String :=
  let parts : List String :=
    (if optTruthy p.tunnel then ["tunnel=" ++ p.tunnel.getD ""] else []) ++
    (if optTruthy p.product then [p.product.getD ""] else []) ++
    (if optTruthy p.version then [p.version.getD ""] else []) ++
    (if optTruthy p.extrainfo then [p.extrainfo.getD ""] else [])
  if parts.isEmpty then "" else pyStrip (pyJoin " " parts)

/-- From `nmap_import.py` `_build_scan_metadata`.  `NmapPort` carries none of
the `state_reason`/`service_conf`/... attributes that the function probes with
`getattr(..., None)`, so only the run metadata and host times contribute. -/
def buildScanMetadata (meta : Option NmapImportMetadata)
    (hostStarttime hostEndtime : Option String) : List (String × String) :=
  (match meta with
   | some m => if strTruthy m.args then [("nmap_args", m.args)] else []
   | none => []) ++
  (if optTruthy hostStarttime then [("scan_start", hostStarttime.getD "")]
   else match meta with
     | some m => if strTruthy m.scanStart then [("scan_start", m.scanStart)] else []
     | none => []) ++
  (if optTruthy hostEndtime then [("scan_end", hostEndtime.getD "")]
   else match meta with
     | some m => if strTruthy m.scanEnd then [("scan_end", m.scanEnd)] else []
     | none => [])

/-- Model of Python `int(s)` on a decimal string with optional sign and
surrounding whitespace (underscore grouping is not modelled). -/
def pyParseInt (s : String) : Option Int :=
  let t := pyStrip s
  match t.data with
  | [] => none
  | '-' :: rest => if rest ≠ [] ∧ rest.all Char.isDigit then some (-(digitsToNat ⟨rest⟩ : Int)) else none
  | '+' :: rest => if rest ≠ [] ∧ rest.all Char.isDigit then some (digitsToNat ⟨rest⟩ : Int) else none
  | l => if l.all Char.isDigit then some (digitsToNat ⟨l⟩ : Int) else none

/-- From `nmap_import.py` `_parse_epoch_to_utc`; the resulting UTC datetime is
identified with its epoch integer. -/
def parseEpochToUtc (epochStr : Option String) : Option Int :=
  match epochStr with
  | none => none
  | some s => if ¬ strTruthy s then none else pyParseInt s

/-- Sequential field updates of the `if existing:` body of `nmap_import.py`
`_find_or_create_port`, one named step per guarded mutation.  The pair is
(row so far, whether any field changed). -/
def nmapMergeService (isSame : Bool) (p : NmapPort) (s : Port × Bool) : Port × Bool :=
  if (¬ optTruthy s.1.serviceName ∨ isSame) ∧ optTruthy p.serviceName then
    ({ s.1 with serviceName := some (pyTake (p.serviceName.getD "") 255) }, true)
  else s

def nmapMergeVersion (isSame : Bool) (p : NmapPort) (s : Port × Bool) : Port × Bool :=
  if (¬ optTruthy s.1.serviceVersion ∨ isSame) ∧ optTruthy p.version then
    ({ s.1 with serviceVersion := some (pyTake (p.version.getD "") 255) }, true)
  else s

def nmapMergeBanner (isSame : Bool) (banner : String) (s : Port × Bool) : Port × Bool :=
  if strTruthy banner ∧ (¬ optTruthy s.1.banner ∨ isSame) then
    ({ s.1 with banner := some (pyTake banner 2000) }, true)
  else s

def nmapMergeState (isSame : Bool) (p : NmapPort) (s : Port × Bool) : Port × Bool :=
  if (¬ optTruthy s.1.state ∨ isSame) ∧ strTruthy p.state then
    ({ s.1 with state := some (pyTake p.state 32) }, true)
  else s

def nmapMergeDiscovered (s : Port × Bool) : Port × Bool :=
  if ¬ optTruthy s.1.discoveredBy then
    ({ s.1 with discoveredBy := some "nmap" }, true)
  else s

def nmapMergeScanMeta (isSame : Bool) (scanMeta : List (String × String))
    (s : Port × Bool) : Port × Bool :=
  if isSame ∧ ¬ scanMeta.isEmpty then
    ({ s.1 with scanMetadata := some scanMeta }, true)
  else s

def nmapMergeScannedAt (isSame : Bool) (scannedAt : Option Int)
    (s : Port × Bool) : Port × Bool :=
  if isSame ∧ scannedAt ≠ none then
    ({ s.1 with scannedAt := scannedAt }, true)
  else s

/-- The `if existing:` body of `nmap_import.py` `_find_or_create_port`: the
field-merge policy applied to a matched port row.  Returns the updated row
and whether any field changed (counted as `ports_updated`). -/
def nmapMergePort (ex : Port) (p : NmapPort)
    (scanMeta : List (String × String)) (scannedAt : Option Int) : Port × Bool :=
  let isSame : Bool := decide (pyLower (ex.discoveredBy.getD "") = "nmap")
  nmapMergeScannedAt isSame scannedAt
    (nmapMergeScanMeta isSame scanMeta
      (nmapMergeDiscovered
        (nmapMergeState isSame p
          (nmapMergeBanner isSame (buildServiceBanner p)
            (nmapMergeVersion isSame p
              (nmapMergeService isSame p (ex, false)))))))

/-- From `nmap_import.py` `_find_or_create_port`.  Returns
(port row after the call, created flag, counted as updated, store after). -/
def nmapFindOrCreatePort (db : Db) (host : Host) (p : NmapPort)
    (meta : Option NmapImportMetadata) (hostStarttime hostEndtime : Option String) :
    Port × Bool × Bool × Db :=
  let proto0 := pyLower (if strTruthy p.protocol then p.protocol else "tcp")
  let proto := if proto0 = "tcp" ∨ proto0 = "udp" then proto0 else "tcp"
  let scanMeta := buildScanMetadata meta hostStarttime hostEndtime
  let scannedAt := parseEpochToUtc hostStarttime
  match db.ports.find? (fun x =>
      decide (x.hostId = host.id ∧ x.protocol = proto ∧ x.number = p.portId)) with
  | some ex =>
    let s := nmapMergePort ex p scanMeta scannedAt
    (s.1, false, s.2, db.updatePort s.1)
  | none =>
    let banner := buildServiceBanner p
    let port : Port :=
      { id := db.nextId, hostId := host.id, protocol := proto, number := p.portId,
        state := some (if strTruthy p.state then pyTake p.state 32 else "unknown"),
        serviceName := if optTruthy p.serviceName then some (pyTake (p.serviceName.getD "") 255) else none,
        serviceVersion := if optTruthy p.version then some (pyTake (p.version.getD "") 255) else none,
        banner := if strTruthy banner then some (pyTake banner 2000) else none,
        discoveredBy := some "nmap",
        scanMetadata := if scanMeta.isEmpty then none else some scanMeta,
        scannedAt := scannedAt }
    (port, true, false,
      { db with ports := db.ports ++ [port], nextId := db.nextId + 1 })

/-- First guarded mutation of the masscan port merge: state (and with it the
`discovered_by` stamp). -/
def masscanMergeState (isSame : Bool) (st : String) (s : Port × Bool) : Port × Bool :=
  if (¬ optTruthy s.1.state ∨ isSame) ∧ strTruthy st then
    ({ s.1 with state := some st, discoveredBy := some "masscan" }, true)
  else s

/-- The `if existing:` body of `masscan_import.py` `_find_or_create_port`. -/
def masscanMergePort (ex : Port) (st : String) (scannedAt : Option Int) :
    Port × Bool :=
  let isSame : Bool := decide (pyLower (ex.discoveredBy.getD "") = "masscan")
  let s1 := masscanMergeState isSame st (ex, false)
  let s2 :=
    if isSame ∧ scannedAt ≠ none then
      { s1.1 with scannedAt := scannedAt }
    else s1.1
  (s2, s1.2 ∨ (isSame ∧ scannedAt ≠ none))

/-- From `masscan_import.py` `_find_or_create_port`. -/
def masscanFindOrCreatePort (db : Db) (host : Host) (portId : Nat)
    (protocol state : String) (scannedAt : Option Int) :
    Port × Bool × Bool × Db :=
  let proto0 := pyLower (if strTruthy protocol then protocol else "tcp")
  let proto := if proto0 = "tcp" ∨ proto0 = "udp" then proto0 else "tcp"
  let st := pyTake (if strTruthy state then state else "open") 32
  match db.ports.find? (fun x =>
      decide (x.hostId = host.id ∧ x.protocol = proto ∧ x.number = portId)) with
  | some ex =>
    let s := masscanMergePort ex st scannedAt
    (s.1, false, s.2, db.updatePort s.1)
  | none =>
    let port : Port :=
      { id := db.nextId, hostId := host.id, protocol := proto, number := portId,
        state := some st, serviceName := none, serviceVersion := none,
        banner := none, discoveredBy := some "masscan",
        scanMetadata := none, scannedAt := scannedAt }
    (port, true, false,
      { db with ports := db.ports ++ [port], nextId := db.nextId + 1 })

/-- From `gowitness_import.py` `_find_or_create_port`. -/
def gowitnessFindOrCreatePort (db : Db) (host : Host) (portNum : Nat)
    (protocol : String) : Port × Bool × Db :=
  let proto := "tcp"
  match db.ports.find? (fun x =>
      decide (x.hostId = host.id ∧ x.protocol = proto ∧ x.number = portNum)) with
  | some ex => (ex, false, db)
  | none =>
    let port : Port :=
      { id := db.nextId, hostId := host.id, protocol := proto, number := portNum,
        state := some "open",
        serviceName := some (if protocol = "http" then "http" else "https"),
        serviceVersion := none, banner := none,
        discoveredBy := some "gowitness", scanMetadata := none, scannedAt := none }
    (port, true,
      { db with ports := db.ports ++ [port], nextId := db.nextId + 1 })

/-! ## Evidence deduplication -/

/-- From `nmap_import.py` `_evidence_caption_exists`: a text evidence row from
nmap on this port whose caption starts with the prefix. -/
def evidenceCaptionExists (db : Db) (portId : Nat) (captionPrefix : String) : Bool :=
  db.evidence.any fun ev =>
    decide (ev.portId = some portId ∧ ev.source = some "nmap" ∧ ev.storedPath = none) &&
    (optTruthy ev.caption && pyStartsWith (ev.caption.getD "") captionPrefix)

/-- From `nmap_import.py` `_add_evidence`: append a text evidence row tagged
with the nmap source. -/
def nmapAddEvidence (db : Db) (projectId hostId portId : Nat)
    (caption filename sourceFile : String) : Db :=
  let ev : Evidence :=
    { id := db.nextId, projectId := projectId, hostId := some hostId,
      portId := some portId, filename := filename, caption := some caption,
      sha256 := none, storedPath := none, source := some "nmap",
      sourceFile := some sourceFile }
  { db with evidence := db.evidence ++ [ev], nextId := db.nextId + 1 }

/-- From `gowitness_import.py` `_metadata_evidence_exists`: the dedup key is
prefix plus the current value, looked up as a substring of existing captions. -/
def metadataEvidenceExists (db : Db) (portId : Nat) (evType value : String) : Bool :=
  let pre :=
    if evType = "response_code" then "Response code: "
    else if evType = "server" then "Server: "
    else if evType = "technologies" then "Technologies: "
    else if evType = "title" then "Page title: "
    else if evType = "redirect_chain" then "Redirect chain: "
    else ""
  let search := pre ++ value
  db.evidence.any fun ev =>
    decide (ev.portId = some portId ∧ ev.source = some "gowitness" ∧ ev.storedPath = none) &&
    (optTruthy ev.caption && pyContains (ev.caption.getD "") search)

/-- From `gowitness_import.py` `_screenshot_evidence_exists`. -/
def screenshotEvidenceExists (db : Db) (portId : Nat) (fileSha : Option String) : Bool :=
  match fileSha with
  | none => false
  | some h =>
    db.evidence.any fun ev =>
      decide (ev.portId = some portId ∧ ev.source = some "gowitness" ∧ ev.sha256 = some h)

/-- From `gowitness_import.py` `_add_evidence`. -/
def gowitnessAddEvidence (db : Db) (projectId hostId portId : Nat)
    (caption : String) (storedPath : Option String) (filename : String)
    (sha : Option String) (sourceDir : String) : Db :=
  let ev : Evidence :=
    { id := db.nextId, projectId := projectId, hostId := some hostId,
      portId := some portId, filename := filename, caption := some caption,
      sha256 := sha, storedPath := storedPath, source := some "gowitness",
      sourceFile := some sourceDir }
  { db with evidence := db.evidence ++ [ev], nextId := db.nextId + 1 }

/-- The `Server` block of `nmap_import.py` `_add_port_evidence`: the server
value comes from the last `http-server-header` script (Python dict
comprehension keeps the last entry per id) stripped, with the service banner
as fallback, deduplicated on the `"Server:"` caption prefix.  Returns the
`evidence_created` increment and the store. -/
def nmapServerEvidenceStep (db : Db) (projectId hostId : Nat) (port : Port)
    (p : NmapPort) (sourceFile : String) : Nat × Db :=
  let httpServer := (p.scripts.filter fun s => strTruthy s.id ∧ s.id = "http-server-header").getLast?
  let sv0 := match httpServer with
    | some s => if strTruthy s.output then pyStrip s.output else ""
    | none => ""
  let sv := if strTruthy sv0 then sv0 else buildServiceBanner p
  if strTruthy sv ∧ ¬ evidenceCaptionExists db port.id "Server:" then
    let cap := "Server: " ++ sv ++ " [nmap]"
    (1, nmapAddEvidence db projectId hostId port.id cap "server" sourceFile)
  else (0, db)

/-- The `Server` header block of `gowitness_import.py` `run_gowitness_import`:
deduplicated on prefix plus value, so the dedup key includes the detail text.
Returns the `metadata_records_imported` increment and the store. -/
def gowitnessServerStep (db : Db) (projectId hostId portId : Nat)
    (serverHeader : Option String) (sourceDir : String) : Nat × Db :=
  if optTruthy serverHeader then
    let v := serverHeader.getD ""
    let cap := "Server: " ++ v ++ " [gowitness]"
    if ¬ metadataEvidenceExists db portId "server" v then
      (1, gowitnessAddEvidence db projectId hostId portId cap none "metadata-server" none sourceDir)
    else (0, db)
  else (0, db)

/-! ## Screenshot filename and URL parsing (`gowitness_parser.py`) -/

/-- Model of Python `pathlib.Path(name).stem` for a bare file name: the name
without its final suffix; a dot in first position does not open a suffix. -/
def pathStem (name : String) : String :=
  let d := name.data
  let upToDot := (d.reverse.dropWhile (fun c => c ≠ '.')).reverse
  if upToDot.isEmpty then name
  else
    let stemData := upToDot.dropLast
    if stemData.isEmpty then name else ⟨stemData⟩

/-- From `gowitness_parser.py` `_normalize_host`: strip leading and trailing
dots. -/
def normalizeHost (s : String) : String :=
  if ¬ strTruthy s then s
  else ⟨((s.data.dropWhile (fun c => c = '.')).reverse.dropWhile (fun c => c = '.')).reverse⟩

/-- Model of Python `str.isdigit` restricted to ASCII. -/
def pyIsdigit (s : String) : Bool :=
  ¬ s.data.isEmpty ∧ s.data.all Char.isDigit

/-- From `gowitness_parser.py` `_filename_to_url_guess`: reconstruct a URL
from a `scheme-host[-port].ext` screenshot file name.  The final `if/else` on
the all-digits-and-dots pattern returns identical strings in both branches in
the source and is collapsed here. -/
def filenameToUrlGuess (filename : String) : Option String :=
  let base := pathStem filename
  if ¬ pyContains base "-" then none
  else
    let parts := pySplit base "-"
    if parts.length < 2 then none
    else
      let scheme := pyLower (parts.headD "")
      if ¬ (scheme = "http" ∨ scheme = "https") then none
      else
        let rest := pyJoin "-" (parts.drop 1)
        let last := if pyContains rest "-" then ((pySplit rest "-").getLastD "") else ""
        let portSuffix :=
          if pyIsdigit last ∧ last.data.length ≤ 5 then some (digitsToNat last) else none
        let rest2 :=
          match portSuffix with
          | some p =>
            if 1 ≤ p ∧ p ≤ 65535 then pyTake rest (rest.data.length - (last.data.length + 1))
            else rest
          | none => rest
        let hostPart := normalizeHost (pyReplace rest2 "-" ".")
        if ¬ strTruthy hostPart then none
        else
          match portSuffix with
          | some p => some (scheme ++ "://" ++ hostPart ++ ":" ++ Nat.repr p ++ "/")
          | none => some (scheme ++ "://" ++ hostPart ++ "/")

/-- Model of the `urllib.parse.urlparse` attributes used by `_parse_url` for
`scheme://netloc/...` URLs: lower-cased scheme and hostname, the port being
the decimal digits after the last colon of the netloc (an invalid or
out-of-range port raises when accessed, which the caller turns into `none`).
Returns (scheme, hostname, port) on success. -/
def urlparseModel (url : String) : Option (String × String × Option Nat) :=
  if ¬ pyContains url "://" then none
  else
    match pySplit url "://" with
    | schemePart :: restParts =>
      let rest := pyJoin "://" restParts
      let netloc := (pySplit rest "/").headD ""
      let hp :=
        if pyContains netloc ":" then
          let segs := pySplit netloc ":"
          let portStr := segs.getLastD ""
          let hostStr := pyJoin ":" segs.dropLast
          if ¬ strTruthy portStr then some (hostStr, none)
          else if pyIsdigit portStr ∧ digitsToNat portStr ≤ 65535 then
            some (hostStr, some (digitsToNat portStr))
          else none
        else some (netloc, none)
      match hp with
      | some (h, po) => some (pyLower schemePart, pyLower h, po)
      | none => none
    | [] => none

/-- From `gowitness_parser.py` `_parse_url`. -/
def parseUrl (url : String) : Option ParsedURL :=
  match urlparseModel url with
  | none => none
  | some (scheme0, hostname, port0) =>
    if ¬ strTruthy hostname then none
    else
      let host := normalizeHost hostname
      let scheme1 := pyLower scheme0
      let scheme :=
        if scheme1 = "http" ∨ scheme1 = "https" then scheme1
        else if port0 = some 443 then "https" else "http"
      let port := match port0 with
        | some p => p
        | none => if scheme = "https" then 443 else 80
      let isIp :=
        (¬ host.data.isEmpty ∧ host.data.all fun c => c.isDigit ∨ c = '.') ∨
        pyContains host ":"
      let hostnameOut := if isIp then none else some host
      some { host := host, port := port, protocol := scheme, isIp := isIp,
             hostname := hostnameOut, rawUrl := url }

/-! ## Format detection and dispatch (`nmap_parser.py`, `import_dispatcher.py`) -/

/-- Upload content: decodable text, a readable ZIP archive with named text
members, or bytes that the `zipfile` module rejects. -/
inductive FileData
  | text (s : String)
  | zip (entries : List (String × String))
  | badZip
deriving DecidableEq

/-- Text view of uploaded bytes (Python `decode` with `errors="replace"`).
Binary archive bytes never contain the sniffed scanner markers and are
modelled as empty text. -/
def fdText : FileData → String
  | .text s => s
  | _ => ""

/-- From `nmap_parser.py` `_is_nmap_xml`. -/
def isNmapXml (content : FileData) : Bool :=
  let start := pyStrip (pyTake (fdText content) 2000)
  pyContains start "<nmaprun" ∨
    (pyContains start "<?xml" ∧ pyContains (pyLower start) "nmap")

/-- From `nmap_parser.py` `_is_nmap_grepable`. -/
def isNmapGrepable (content : FileData) : Bool :=
  let t := pyTake (fdText content) 5000
  pyContains t "Host:" ∧ (pyContains t "Ports:" ∨ pyContains t "Status:") ∧
    pyContains t "\t"

/-- From `nmap_parser.py` `_is_nmap_normal`. -/
def isNmapNormal (content : FileData) : Bool :=
  let t := pyTake (fdText content) 2000
  pyContains t "Nmap scan report" ∧ pyContains t "Starting Nmap"

/-- From `nmap_parser.py` `detect_nmap_format`. -/
def detectNmapFormat (content : FileData) (filename : String) : Option String :=
  let fn := pyLower filename
  if pyEndsWith fn ".xml" ∨ pyEndsWith fn ".xml.gz" then
    if isNmapXml content then some "xml" else none
  else if pyEndsWith fn ".gnmap" then
    if isNmapGrepable content then some "grepable" else none
  else if pyEndsWith fn ".nmap" then
    if isNmapNormal content then some "normal" else none
  else if isNmapXml content then some "xml"
  else if isNmapGrepable content then some "grepable"
  else if isNmapNormal content then some "normal"
  else none

/-- From `import_dispatcher.py` `detect_import_format`: (format, error). -/
def detectImportFormat (content : FileData) (filename : String) :
    Option String × String :=
  let fn := pyStrip (pyLower filename)
  if pyEndsWith fn ".xml" then
    if detectNmapFormat content filename = some "xml" then (some "nmap", "")
    else
      let t := pyTake (fdText content) 500
      if pyContains t "<nmaprun" ∨ pyContains t "<?xml" then
        (none, "File appears to be XML but not valid Nmap format. Ensure it is Nmap XML output (-oX).")
      else
        (none, "Invalid or unsupported XML format. Nmap XML (-oX) is required.")
  else if pyEndsWith fn ".zip" then
    match content with
    | .zip entries =>
      let names := entries.map Prod.fst
      let hasImage := names.any fun n =>
        pyEndsWith (pyLower n) ".png" ∨ pyEndsWith (pyLower n) ".jpg" ∨
          pyEndsWith (pyLower n) ".jpeg"
      let hasJsonl := names.any fun n => pyEndsWith (pyLower n) ".jsonl"
      let hasNmapXml := entries.any fun e =>
        pyEndsWith (pyLower e.1) ".xml" ∧ ¬ pyStartsWith e.1 "__" ∧
          detectNmapFormat (.text e.2) e.1 = some "xml"
      if hasNmapXml then (some "nmap", "")
      else if hasImage ∨ hasJsonl then (some "gowitness", "")
      else
        (none, "ZIP contents not recognized. Expected: Nmap XML (.xml), or GoWitness output (PNG/JPEG screenshots and/or .jsonl).")
    | _ => (none, "Invalid or corrupted ZIP file.")
  else if pyEndsWith fn ".txt" then (some "text", "")
  else if pyEndsWith fn ".gnmap" then
    (none, "Grepable format (-oG) is not yet supported. Use Nmap XML (-oX).")
  else if pyEndsWith fn ".nmap" then
    (none, "Normal format (-oN) is not yet supported. Use Nmap XML (-oX).")
  else if detectNmapFormat content filename = some "xml" then (some "nmap", "")
  else
    (none, "Unsupported file format. Use Nmap XML (.xml), GoWitness ZIP (.zip), or plain text (.txt).")

/-! ## Import route: extension gate and batch aggregation (`projects.py`) -/

/-- `ALLOWED_IMPORT_EXTENSIONS` from `projects.py`. -/
def allowedImportExtensions : List String :=
  [".xml", ".zip", ".txt", ".json", ".masscan", ".lst"]

/-- The extension gate of the import route. -/
def extensionAllowed (fn : String) : Bool :=
  allowedImportExtensions.any fun ext => pyEndsWith fn ext

/-- Per-file summary dict; fields the per-format importers do not emit read
as zero, matching the route `r.get(k) or 0`. -/
structure ImportResult where
  format : String
  hostsCreated : Nat := 0
  hostsUpdated : Nat := 0
  subnetsUpdated : Nat := 0
  portsCreated : Nat := 0
  portsUpdated : Nat := 0
  evidenceCreated : Nat := 0
  notesCreated : Nat := 0
  screenshotsImported : Nat := 0
  metadataRecordsImported : Nat := 0
  skipped : Nat := 0
  errors : List String := []
deriving DecidableEq

/-- Aggregated batch response. -/
structure AggResult where
  format : String
  hostsCreated : Nat := 0
  hostsUpdated : Nat := 0
  subnetsUpdated : Nat := 0
  portsCreated : Nat := 0
  portsUpdated : Nat := 0
  evidenceCreated : Nat := 0
  notesCreated : Nat := 0
  screenshotsImported : Nat := 0
  metadataRecordsImported : Nat := 0
  skipped : Nat := 0
  errors : List String := []
  filesProcessed : Nat := 0
deriving DecidableEq

/-- The zero-counter structured result the route emits for a rejected file. -/
def zeroResultWith (errs : List String) : ImportResult :=
  { format := "unknown", errors := errs }

/-- An uploaded file: original name plus content. -/
structure Upload where
  filename : String
  content : FileData
deriving DecidableEq

/-- The route `len(data) == 0` check (an empty text upload; archives are
never zero bytes). -/
def fdIsEmpty : FileData → Bool
  | .text s => ¬ strTruthy s
  | _ => false

/-- One iteration of the accumulation loop of
`projects.py` `_aggregate_import_results`: add every numeric field and
append the errors. -/
def aggStep (a : AggResult) (r : ImportResult) : AggResult :=
  { a with
    hostsCreated := a.hostsCreated + r.hostsCreated,
    hostsUpdated := a.hostsUpdated + r.hostsUpdated,
    subnetsUpdated := a.subnetsUpdated + r.subnetsUpdated,
    portsCreated := a.portsCreated + r.portsCreated,
    portsUpdated := a.portsUpdated + r.portsUpdated,
    evidenceCreated := a.evidenceCreated + r.evidenceCreated,
    notesCreated := a.notesCreated + r.notesCreated,
    screenshotsImported := a.screenshotsImported + r.screenshotsImported,
    metadataRecordsImported := a.metadataRecordsImported + r.metadataRecordsImported,
    skipped := a.skipped + r.skipped,
    errors := a.errors ++ r.errors }

/-- From `projects.py` `_aggregate_import_results`. -/
def aggregateImportResults (results : List ImportResult) (formats : List String) :
    AggResult :=
  match results with
  | [] => { format := "unknown" }
  | _ =>
    let agg := results.foldl aggStep ({ format := "unknown" } : AggResult)
    let fmt := match formats with
      | [] => "mixed"
      | f :: rest => if rest.all fun g => g = f then f else "mixed"
    { agg with format := fmt, filesProcessed := results.length }

/-- One iteration of the upload loop in `projects.py` `import_scan`.  The call
into `run_import` is the `runImp` parameter (an importer either returns a
summary or raises `ValueError` with a message); a successful result has each
of its errors prefixed with the file name.  Returns the appended result and
the appended entry of `formats_used`. -/
def processUpload (runImp : Upload → Except String ImportResult) (u : Upload) :
    ImportResult × String :=
  let fn := pyLower (pyStrip u.filename)
  if ¬ extensionAllowed fn then
    (zeroResultWith [u.filename ++ ": Unsupported file type. Use Nmap XML (.xml), GoWitness/ZIP (.zip), plain text (.txt), Masscan list (.masscan, .lst, or .txt), or whois/RDAP JSON (.json)."],
      "unknown")
  else if fdIsEmpty u.content then
    (zeroResultWith [u.filename ++ ": Empty file"], "unknown")
  else
    match runImp u with
    | .ok r =>
      ({ r with errors := r.errors.map fun e =>
          if strTruthy e then u.filename ++ ": " ++ e else u.filename },
        if strTruthy r.format then r.format else "unknown")
    | .error msg => (zeroResultWith [u.filename ++ ": " ++ msg], "unknown")

/-- The body of `projects.py` `import_scan` after project validation: the
loop appends one result and one format entry per upload with no early exit,
then aggregates. -/
def importScan (runImp : Upload → Except String ImportResult)
    (uploads : List Upload) : AggResult :=
  let prs := uploads.map (processUpload runImp)
  aggregateImportResults (prs.map Prod.fst) (prs.map Prod.snd)

/-! ## Shared lemmas -/

/-- An empty string is not a dotted-quad IPv4 address. -/
lemma parseIPv4_nil (t : String) (h : t.data = []) : parseIPv4 t = none := by
  obtain ⟨d⟩ := t
  simp only [String.data] at h
  subst h
  decide

/-- An empty string is not an IPv6 address. -/
lemma parseIPv6_nil (t : String) (h : t.data = []) : parseIPv6 t = none := by
  obtain ⟨d⟩ := t
  simp only [String.data] at h
  subst h
  decide

/-- Updating a host row keeps the number of host rows. -/
lemma length_updateHost (db : Db) (h : Host) :
    (db.updateHost h).hosts.length = db.hosts.length := by
  simp [Db.updateHost]

/-- Truthiness of a present optional string is string truthiness. -/
lemma optTruthy_some (s : String) : optTruthy (some s) = strTruthy s := rfl

/-- A successful subnet resolution yields a subnet id. -/
lemma subnetResolver_isSome (db : Db) (pid : Nat) (ip : String)
    (h : (cidrForIp ip).isSome) :
    (findOrCreateSubnetForIp db pid ip).1.isSome := by
  unfold findOrCreateSubnetForIp
  cases hc : cidrForIp ip with
  | none => rw [hc] at h; simp at h
  | some cidr =>
    dsimp only
    cases db.subnets.find? (fun sn => decide (sn.projectId = pid ∧ sn.cidr = cidr)) <;> simp

/-- Subnet resolution never touches the host table. -/
lemma subnetResolver_hosts (db : Db) (pid : Nat) (ip : String) :
    (findOrCreateSubnetForIp db pid ip).2.hosts = db.hosts := by
  unfold findOrCreateSubnetForIp
  cases cidrForIp ip with
  | none => rfl
  | some c =>
    dsimp only
    cases db.subnets.find? (fun sn => decide (sn.projectId = pid ∧ sn.cidr = c)) <;> rfl

/-! Field-preservation lemmas: each merge step leaves every other port
field untouched. -/

lemma nmapMergeService_keep_serviceVersion (isSame : Bool) (p : NmapPort) (s : Port × Bool) :
    (nmapMergeService isSame p s).1.serviceVersion = s.1.serviceVersion := by
  unfold nmapMergeService; split <;> rfl

lemma nmapMergeService_keep_banner (isSame : Bool) (p : NmapPort) (s : Port × Bool) :
    (nmapMergeService isSame p s).1.banner = s.1.banner := by
  unfold nmapMergeService; split <;> rfl

lemma nmapMergeService_keep_state (isSame : Bool) (p : NmapPort) (s : Port × Bool) :
    (nmapMergeService isSame p s).1.state = s.1.state := by
  unfold nmapMergeService; split <;> rfl

lemma nmapMergeService_keep_discoveredBy (isSame : Bool) (p : NmapPort) (s : Port × Bool) :
    (nmapMergeService isSame p s).1.discoveredBy = s.1.discoveredBy := by
  unfold nmapMergeService; split <;> rfl

lemma nmapMergeService_keep_scanMetadata (isSame : Bool) (p : NmapPort) (s : Port × Bool) :
    (nmapMergeService isSame p s).1.scanMetadata = s.1.scanMetadata := by
  unfold nmapMergeService; split <;> rfl

lemma nmapMergeService_keep_scannedAt (isSame : Bool) (p : NmapPort) (s : Port × Bool) :
    (nmapMergeService isSame p s).1.scannedAt = s.1.scannedAt := by
  unfold nmapMergeService; split <;> rfl

lemma nmapMergeVersion_keep_serviceName (isSame : Bool) (p : NmapPort) (s : Port × Bool) :
    (nmapMergeVersion isSame p s).1.serviceName = s.1.serviceName := by
  unfold nmapMergeVersion; split <;> rfl

lemma nmapMergeVersion_keep_banner (isSame : Bool) (p : NmapPort) (s : Port × Bool) :
    (nmapMergeVersion isSame p s).1.banner = s.1.banner := by
  unfold nmapMergeVersion; split <;> rfl

lemma nmapMergeVersion_keep_state (isSame : Bool) (p : NmapPort) (s : Port × Bool) :
    (nmapMergeVersion isSame p s).1.state = s.1.state := by
  unfold nmapMergeVersion; split <;> rfl

lemma nmapMergeVersion_keep_discoveredBy (isSame : Bool) (p : NmapPort) (s : Port × Bool) :
    (nmapMergeVersion isSame p s).1.discoveredBy = s.1.discoveredBy := by
  unfold nmapMergeVersion; split <;> rfl

lemma nmapMergeVersion_keep_scanMetadata (isSame : Bool) (p : NmapPort) (s : Port × Bool) :
    (nmapMergeVersion isSame p s).1.scanMetadata = s.1.scanMetadata := by
  unfold nmapMergeVersion; split <;> rfl

lemma nmapMergeVersion_keep_scannedAt (isSame : Bool) (p : NmapPort) (s : Port × Bool) :
    (nmapMergeVersion isSame p s).1.scannedAt = s.1.scannedAt := by
  unfold nmapMergeVersion; split <;> rfl

lemma nmapMergeBanner_keep_serviceName (isSame : Bool) (b : String) (s : Port × Bool) :
    (nmapMergeBanner isSame b s).1.serviceName = s.1.serviceName := by
  unfold nmapMergeBanner; split <;> rfl

lemma nmapMergeBanner_keep_serviceVersion (isSame : Bool) (b : String) (s : Port × Bool) :
    (nmapMergeBanner isSame b s).1.serviceVersion = s.1.serviceVersion := by
  unfold nmapMergeBanner; split <;> rfl

lemma nmapMergeBanner_keep_state (isSame : Bool) (b : String) (s : Port × Bool) :
    (nmapMergeBanner isSame b s).1.state = s.1.state := by
  unfold nmapMergeBanner; split <;> rfl

lemma nmapMergeBanner_keep_discoveredBy (isSame : Bool) (b : String) (s : Port × Bool) :
    (nmapMergeBanner isSame b s).1.discoveredBy = s.1.discoveredBy := by
  unfold nmapMergeBanner; split <;> rfl

lemma nmapMergeBanner_keep_scanMetadata (isSame : Bool) (b : String) (s : Port × Bool) :
    (nmapMergeBanner isSame b s).1.scanMetadata = s.1.scanMetadata := by
  unfold nmapMergeBanner; split <;> rfl

lemma nmapMergeBanner_keep_scannedAt (isSame : Bool) (b : String) (s : Port × Bool) :
    (nmapMergeBanner isSame b s).1.scannedAt = s.1.scannedAt := by
  unfold nmapMergeBanner; split <;> rfl

lemma nmapMergeState_keep_serviceName (isSame : Bool) (p : NmapPort) (s : Port × Bool) :
    (nmapMergeState isSame p s).1.serviceName = s.1.serviceName := by
  unfold nmapMergeState; split <;> rfl

lemma nmapMergeState_keep_serviceVersion (isSame : Bool) (p : NmapPort) (s : Port × Bool) :
    (nmapMergeState isSame p s).1.serviceVersion = s.1.serviceVersion := by
  unfold nmapMergeState; split <;> rfl

lemma nmapMergeState_keep_banner (isSame : Bool) (p : NmapPort) (s : Port × Bool) :
    (nmapMergeState isSame p s).1.banner = s.1.banner := by
  unfold nmapMergeState; split <;> rfl

lemma nmapMergeState_keep_discoveredBy (isSame : Bool) (p : NmapPort) (s : Port × Bool) :
    (nmapMergeState isSame p s).1.discoveredBy = s.1.discoveredBy := by
  unfold nmapMergeState; split <;> rfl

lemma nmapMergeState_keep_scanMetadata (isSame : Bool) (p : NmapPort) (s : Port × Bool) :
    (nmapMergeState isSame p s).1.scanMetadata = s.1.scanMetadata := by
  unfold nmapMergeState; split <;> rfl

lemma nmapMergeState_keep_scannedAt (isSame : Bool) (p : NmapPort) (s : Port × Bool) :
    (nmapMergeState isSame p s).1.scannedAt = s.1.scannedAt := by
  unfold nmapMergeState; split <;> rfl

lemma nmapMergeDiscovered_keep_serviceName (s : Port × Bool) :
    (nmapMergeDiscovered s).1.serviceName = s.1.serviceName := by
  unfold nmapMergeDiscovered; split <;> rfl

lemma nmapMergeDiscovered_keep_serviceVersion (s : Port × Bool) :
    (nmapMergeDiscovered s).1.serviceVersion = s.1.serviceVersion := by
  unfold nmapMergeDiscovered; split <;> rfl

lemma nmapMergeDiscovered_keep_banner (s : Port × Bool) :
    (nmapMergeDiscovered s).1.banner = s.1.banner := by
  unfold nmapMergeDiscovered; split <;> rfl

lemma nmapMergeDiscovered_keep_state (s : Port × Bool) :
    (nmapMergeDiscovered s).1.state = s.1.state := by
  unfold nmapMergeDiscovered; split <;> rfl

lemma nmapMergeDiscovered_keep_scanMetadata (s : Port × Bool) :
    (nmapMergeDiscovered s).1.scanMetadata = s.1.scanMetadata := by
  unfold nmapMergeDiscovered; split <;> rfl

lemma nmapMergeDiscovered_keep_scannedAt (s : Port × Bool) :
    (nmapMergeDiscovered s).1.scannedAt = s.1.scannedAt := by
  unfold nmapMergeDiscovered; split <;> rfl

lemma nmapMergeScanMeta_keep_serviceName (isSame : Bool) (m : List (String × String)) (s : Port × Bool) :
    (nmapMergeScanMeta isSame m s).1.serviceName = s.1.serviceName := by
  unfold nmapMergeScanMeta; split <;> rfl

lemma nmapMergeScanMeta_keep_serviceVersion (isSame : Bool) (m : List (String × String)) (s : Port × Bool) :
    (nmapMergeScanMeta isSame m s).1.serviceVersion = s.1.serviceVersion := by
  unfold nmapMergeScanMeta; split <;> rfl

lemma nmapMergeScanMeta_keep_banner (isSame : Bool) (m : List (String × String)) (s : Port × Bool) :
    (nmapMergeScanMeta isSame m s).1.banner = s.1.banner := by
  unfold nmapMergeScanMeta; split <;> rfl

lemma nmapMergeScanMeta_keep_state (isSame : Bool) (m : List (String × String)) (s : Port × Bool) :
    (nmapMergeScanMeta isSame m s).1.state = s.1.state := by
  unfold nmapMergeScanMeta; split <;> rfl

lemma nmapMergeScanMeta_keep_discoveredBy (isSame : Bool) (m : List (String × String)) (s : Port × Bool) :
    (nmapMergeScanMeta isSame m s).1.discoveredBy = s.1.discoveredBy := by
  unfold nmapMergeScanMeta; split <;> rfl

lemma nmapMergeScanMeta_keep_scannedAt (isSame : Bool) (m : List (String × String)) (s : Port × Bool) :
    (nmapMergeScanMeta isSame m s).1.scannedAt = s.1.scannedAt := by
  unfold nmapMergeScanMeta; split <;> rfl

lemma nmapMergeScannedAt_keep_serviceName (isSame : Bool) (sat : Option Int) (s : Port × Bool) :
    (nmapMergeScannedAt isSame sat s).1.serviceName = s.1.serviceName := by
  unfold nmapMergeScannedAt; split <;> rfl

lemma nmapMergeScannedAt_keep_serviceVersion (isSame : Bool) (sat : Option Int) (s : Port × Bool) :
    (nmapMergeScannedAt isSame sat s).1.serviceVersion = s.1.serviceVersion := by
  unfold nmapMergeScannedAt; split <;> rfl

lemma nmapMergeScannedAt_keep_banner (isSame : Bool) (sat : Option Int) (s : Port × Bool) :
    (nmapMergeScannedAt isSame sat s).1.banner = s.1.banner := by
  unfold nmapMergeScannedAt; split <;> rfl

lemma nmapMergeScannedAt_keep_state (isSame : Bool) (sat : Option Int) (s : Port × Bool) :
    (nmapMergeScannedAt isSame sat s).1.state = s.1.state := by
  unfold nmapMergeScannedAt; split <;> rfl

lemma nmapMergeScannedAt_keep_discoveredBy (isSame : Bool) (sat : Option Int) (s : Port × Bool) :
    (nmapMergeScannedAt isSame sat s).1.discoveredBy = s.1.discoveredBy := by
  unfold nmapMergeScannedAt; split <;> rfl

lemma nmapMergeScannedAt_keep_scanMetadata (isSame : Bool) (sat : Option Int) (s : Port × Bool) :
    (nmapMergeScannedAt isSame sat s).1.scanMetadata = s.1.scanMetadata := by
  unfold nmapMergeScannedAt; split <;> rfl

/-! Skip lemmas: with a foreign or missing source tag (`isSame = false`), a
step whose existing value is non-empty changes nothing. -/

lemma nmapMergeService_skip (p : NmapPort) (s : Port × Bool)
    (h : optTruthy s.1.serviceName = true) : nmapMergeService false p s = s := by
  unfold nmapMergeService
  rw [if_neg]
  simp [h]

lemma nmapMergeVersion_skip (p : NmapPort) (s : Port × Bool)
    (h : optTruthy s.1.serviceVersion = true) : nmapMergeVersion false p s = s := by
  unfold nmapMergeVersion
  rw [if_neg]
  simp [h]

lemma nmapMergeBanner_skip (b : String) (s : Port × Bool)
    (h : optTruthy s.1.banner = true) : nmapMergeBanner false b s = s := by
  unfold nmapMergeBanner
  rw [if_neg]
  simp [h]

lemma nmapMergeState_skip (p : NmapPort) (s : Port × Bool)
    (h : optTruthy s.1.state = true) : nmapMergeState false p s = s := by
  unfold nmapMergeState
  rw [if_neg]
  simp [h]

lemma nmapMergeDiscovered_skip (s : Port × Bool)
    (h : optTruthy s.1.discoveredBy = true) : nmapMergeDiscovered s = s := by
  unfold nmapMergeDiscovered
  rw [if_neg]
  simp [h]

lemma nmapMergeDiscovered_stamp (s : Port × Bool)
    (h : s.1.discoveredBy = none) :
    (nmapMergeDiscovered s).1.discoveredBy = some "nmap" := by
  unfold nmapMergeDiscovered
  rw [if_pos (show ¬ optTruthy s.1.discoveredBy = true by simp [h, optTruthy])]

lemma nmapMergeScanMeta_false (m : List (String × String)) (s : Port × Bool) :
    nmapMergeScanMeta false m s = s := by
  unfold nmapMergeScanMeta
  rw [if_neg]
  simp

lemma nmapMergeScannedAt_false (sat : Option Int) (s : Port × Bool) :
    nmapMergeScannedAt false sat s = s := by
  unfold nmapMergeScannedAt
  rw [if_neg]
  simp

lemma masscanMergeState_skip (st : String) (s : Port × Bool)
    (h : optTruthy s.1.state = true) : masscanMergeState false st s = s := by
  unfold masscanMergeState
  rw [if_neg]
  simp [h]

/-! Accumulation lemmas for the batch aggregation fold. -/

lemma foldl_aggStep_hostsCreated (rs : List ImportResult) (a : AggResult) :
    (rs.foldl aggStep a).hostsCreated = a.hostsCreated + (rs.map ImportResult.hostsCreated).sum := by
  induction rs generalizing a with
  | nil => simp
  | cons r rest ih => simp [List.foldl, ih, aggStep, Nat.add_assoc]

lemma foldl_aggStep_hostsUpdated (rs : List ImportResult) (a : AggResult) :
    (rs.foldl aggStep a).hostsUpdated = a.hostsUpdated + (rs.map ImportResult.hostsUpdated).sum := by
  induction rs generalizing a with
  | nil => simp
  | cons r rest ih => simp [List.foldl, ih, aggStep, Nat.add_assoc]

lemma foldl_aggStep_subnetsUpdated (rs : List ImportResult) (a : AggResult) :
    (rs.foldl aggStep a).subnetsUpdated = a.subnetsUpdated + (rs.map ImportResult.subnetsUpdated).sum := by
  induction rs generalizing a with
  | nil => simp
  | cons r rest ih => simp [List.foldl, ih, aggStep, Nat.add_assoc]

lemma foldl_aggStep_portsCreated (rs : List ImportResult) (a : AggResult) :
    (rs.foldl aggStep a).portsCreated = a.portsCreated + (rs.map ImportResult.portsCreated).sum := by
  induction rs generalizing a with
  | nil => simp
  | cons r rest ih => simp [List.foldl, ih, aggStep, Nat.add_assoc]

lemma foldl_aggStep_portsUpdated (rs : List ImportResult) (a : AggResult) :
    (rs.foldl aggStep a).portsUpdated = a.portsUpdated + (rs.map ImportResult.portsUpdated).sum := by
  induction rs generalizing a with
  | nil => simp
  | cons r rest ih => simp [List.foldl, ih, aggStep, Nat.add_assoc]

lemma foldl_aggStep_evidenceCreated (rs : List ImportResult) (a : AggResult) :
    (rs.foldl aggStep a).evidenceCreated = a.evidenceCreated + (rs.map ImportResult.evidenceCreated).sum := by
  induction rs generalizing a with
  | nil => simp
  | cons r rest ih => simp [List.foldl, ih, aggStep, Nat.add_assoc]

lemma foldl_aggStep_notesCreated (rs : List ImportResult) (a : AggResult) :
    (rs.foldl aggStep a).notesCreated = a.notesCreated + (rs.map ImportResult.notesCreated).sum := by
  induction rs generalizing a with
  | nil => simp
  | cons r rest ih => simp [List.foldl, ih, aggStep, Nat.add_assoc]

lemma foldl_aggStep_screenshotsImported (rs : List ImportResult) (a : AggResult) :
    (rs.foldl aggStep a).screenshotsImported = a.screenshotsImported + (rs.map ImportResult.screenshotsImported).sum := by
  induction rs generalizing a with
  | nil => simp
  | cons r rest ih => simp [List.foldl, ih, aggStep, Nat.add_assoc]

lemma foldl_aggStep_metadataRecordsImported (rs : List ImportResult) (a : AggResult) :
    (rs.foldl aggStep a).metadataRecordsImported = a.metadataRecordsImported + (rs.map ImportResult.metadataRecordsImported).sum := by
  induction rs generalizing a with
  | nil => simp
  | cons r rest ih => simp [List.foldl, ih, aggStep, Nat.add_assoc]

lemma foldl_aggStep_skipped (rs : List ImportResult) (a : AggResult) :
    (rs.foldl aggStep a).skipped = a.skipped + (rs.map ImportResult.skipped).sum := by
  induction rs generalizing a with
  | nil => simp
  | cons r rest ih => simp [List.foldl, ih, aggStep, Nat.add_assoc]

lemma foldl_aggStep_errors (rs : List ImportResult) (a : AggResult) :
    (rs.foldl aggStep a).errors = a.errors ++ (rs.map ImportResult.errors).flatten := by
  induction rs generalizing a with
  | nil => simp
  | cons r rest ih => simp [List.foldl, ih, aggStep]

/-! ## Claim theorems -/

/-- C1: the claim states that `.json` uploads are routed to the whois/RDAP
parser, `.masscan`/`.lst` uploads to the masscan parser, and that none of the
six allowed extensions is rejected by format detection.  In the code the
route extension gate (`ALLOWED_IMPORT_EXTENSIONS`) admits `.json`,
`.masscan` and `.lst`, but `detect_import_format` has no branch for them:
such files fall through to the nmap content sniff and are rejected with the
generic unsupported-format message, so their parsers never run. -/
theorem c1_json_masscan_lst_rejected :
    extensionAllowed "whois.json" = true ∧
    extensionAllowed "scan.masscan" = true ∧
    extensionAllowed "hosts.lst" = true ∧
    detectImportFormat (.text "[\x7b\"ip\": \"10.0.0.1\"\x7d]") "whois.json" =
      (none, "Unsupported file format. Use Nmap XML (.xml), GoWitness ZIP (.zip), or plain text (.txt).") ∧
    detectImportFormat (.text "open tcp 443 10.0.0.7 1699999999") "scan.masscan" =
      (none, "Unsupported file format. Use Nmap XML (.xml), GoWitness ZIP (.zip), or plain text (.txt).") ∧
    detectImportFormat (.text "open tcp 443 10.0.0.7 1699999999") "hosts.lst" =
      (none, "Unsupported file format. Use Nmap XML (.xml), GoWitness ZIP (.zip), or plain text (.txt).") := by
  refine ⟨by decide, by decide, by decide, by decide, by decide, by decide⟩

/-- C7: the claim states that a screenshot named `https-10-0-0-9.png` with no
sidecar JSON yields host `10.0.0.9` with port `443/tcp`.  The filename
reconstruction treats the trailing `-9` as a port suffix, so the guessed URL
is `https://10.0.0:9/`: the created host carries the truncated ip `10.0.0`
(for which no subnet can be computed) and the port number is `9`, not
`10.0.0.9` with `443`. -/
theorem c7_screenshot_filename_misparsed :
    filenameToUrlGuess "https-10-0-0-9.png" = some "https://10.0.0:9/" ∧
    parseUrl "https://10.0.0:9/" =
      some { host := "10.0.0", port := 9, protocol := "https", isIp := true,
             hostname := none, rawUrl := "https://10.0.0:9/" } ∧
    (gowitnessFindOrCreateHost
        { subnets := [], hosts := [], ports := [], evidence := [], nextId := 1 } 1
        { host := "10.0.0", port := 9, protocol := "https", isIp := true,
          hostname := none, rawUrl := "https://10.0.0:9/" }).1.ip = "10.0.0" ∧
    cidrForIp "10.0.0" = none ∧
    ("10.0.0" ≠ "10.0.0.9" ∧ (9 : Nat) ≠ 443) := by
  refine ⟨by decide, by decide, by decide, by decide, by decide, by decide⟩

/-- C2: promotion of a hostname-only host.  For both the nmap and the
gowitness reconciler, when the store holds a sentinel-IP host for hostname
`n` (and no host with the incoming real IP `i` and hostname `n`), merging a
record carrying `(i, n)` does not create a second host: the sentinel row
itself is returned with its `ip` replaced by `i` and its `subnet_id` set to
the subnet freshly resolved from `i`, and the host count is unchanged. -/
theorem c2_promotion
    (db : Db) (pid : Nat) (i n st proto u : String) (hs : List String)
    (ps : List NmapPort) (pn : Nat) (h0 : Host)
    (hi : strTruthy i = true) (hns : i ≠ "unresolved")
    (hn : pyStrip n = n) (hnz : strTruthy n = true)
    (hcid : (cidrForIp i).isSome)
    (hfind1 : db.hosts.find? (fun h =>
      decide (h.projectId = pid ∧ h.ip = i ∧ h.dnsName = some n)) = none)
    (hfind2 : db.hosts.find? (fun h =>
      decide (h.projectId = pid ∧ h.ip = "unresolved" ∧ h.dnsName = some n)) = some h0) :
    ((nmapFindOrCreateHost db pid
      { ip := some i, hostname := some n, hostnames := hs, status := st,
        ports := ps, isUnresolved := false }).2.1 = false ∧
     (nmapFindOrCreateHost db pid
      { ip := some i, hostname := some n, hostnames := hs, status := st,
        ports := ps, isUnresolved := false }).1.id = h0.id ∧
     (nmapFindOrCreateHost db pid
      { ip := some i, hostname := some n, hostnames := hs, status := st,
        ports := ps, isUnresolved := false }).1.ip = i ∧
     (nmapFindOrCreateHost db pid
      { ip := some i, hostname := some n, hostnames := hs, status := st,
        ports := ps, isUnresolved := false }).1.subnetId =
        (findOrCreateSubnetForIp db pid i).1 ∧
     (findOrCreateSubnetForIp db pid i).1.isSome ∧
     (nmapFindOrCreateHost db pid
      { ip := some i, hostname := some n, hostnames := hs, status := st,
        ports := ps, isUnresolved := false }).2.2.hosts.length = db.hosts.length) ∧
    ((gowitnessFindOrCreateHost db pid
      { host := i, port := pn, protocol := proto, isIp := true,
        hostname := some n, rawUrl := u }).2.1 = false ∧
     (gowitnessFindOrCreateHost db pid
      { host := i, port := pn, protocol := proto, isIp := true,
        hostname := some n, rawUrl := u }).1.id = h0.id ∧
     (gowitnessFindOrCreateHost db pid
      { host := i, port := pn, protocol := proto, isIp := true,
        hostname := some n, rawUrl := u }).1.ip = i ∧
     (gowitnessFindOrCreateHost db pid
      { host := i, port := pn, protocol := proto, isIp := true,
        hostname := some n, rawUrl := u }).1.subnetId =
        (findOrCreateSubnetForIp db pid i).1 ∧
     (gowitnessFindOrCreateHost db pid
      { host := i, port := pn, protocol := proto, isIp := true,
        hostname := some n, rawUrl := u }).2.2.hosts.length = db.hosts.length) := by
  have hp := List.find?_some hfind2
  rw [decide_eq_true_iff] at hp
  obtain ⟨hp1, hp2, hp3⟩ := hp
  have hnorm : normStrOpt (some n) = some n := by simp [normStrOpt, hn, hnz]
  obtain ⟨sid, hsid⟩ := Option.isSome_iff_exists.mp (subnetResolver_isSome db pid i hcid)
  constructor
  · unfold nmapFindOrCreateHost
    dsimp only
    simp only [hnorm, hi, eq_self_iff_true, if_true, Bool.false_eq_true, not_false_iff,
      true_and, and_true, hns, ne_eq, not_false_eq_true]
    rw [hfind1]
    dsimp only
    rw [hfind2]
    dsimp only
    unfold nmapUpdateExistingHost
    dsimp only
    simp only [hi, eq_self_iff_true, if_true, Bool.false_eq_true, not_false_iff,
      true_and, and_true, hns, ne_eq, not_false_eq_true]
    have hcond : ¬ (optTruthy (some n) = true ∧
        (¬ optTruthy h0.dnsName = true ∨ ¬ h0.dnsName = some n)) := by
      simp [hp3, optTruthy_some, hnz]
    rw [if_neg hcond]
    rw [if_pos hp2]
    rw [hsid]
    dsimp only
    by_cases hst : (h0.status = none ∨ h0.status = some "unknown")
    · rw [if_pos hst]
      simp [Db.updateHost, subnetResolver_hosts, hsid]
    · rw [if_neg hst]
      simp [Db.updateHost, subnetResolver_hosts, hsid]
  · unfold gowitnessFindOrCreateHost
    dsimp only
    simp only [hnorm, eq_self_iff_true, if_true, true_and, and_true]
    rw [hfind1]
    dsimp only
    rw [hfind2]
    dsimp only
    unfold gowitnessUpdateExistingHost
    dsimp only
    simp only [eq_self_iff_true, if_true, true_and, and_true]
    have hcond : ¬ (optTruthy (some n) = true ∧
        (¬ optTruthy h0.dnsName = true ∨ ¬ h0.dnsName = some n)) := by
      simp [hp3, optTruthy_some, hnz]
    rw [if_neg hcond]
    rw [if_pos hp2]
    rw [hsid]
    dsimp only
    simp [Db.updateHost, subnetResolver_hosts, hsid]

/-- Witness for C2: a project holding one sentinel host for `web1`, promoted
by an nmap record and by a gowitness record carrying `10.0.0.9`. -/
theorem c2_promotion_witness :
    ((nmapFindOrCreateHost
      { subnets := [], ports := [], evidence := [], nextId := 6,
        hosts := [{ id := 5, projectId := 1, subnetId := none, ip := "unresolved",
                    dnsName := some "web1", status := some "unresolved",
                    whoisData := none }] } 1
      { ip := some "10.0.0.9", hostname := some "web1", hostnames := ["web1"],
        status := "up", ports := [], isUnresolved := false }).2.1 = false ∧
     (nmapFindOrCreateHost
      { subnets := [], ports := [], evidence := [], nextId := 6,
        hosts := [{ id := 5, projectId := 1, subnetId := none, ip := "unresolved",
                    dnsName := some "web1", status := some "unresolved",
                    whoisData := none }] } 1
      { ip := some "10.0.0.9", hostname := some "web1", hostnames := ["web1"],
        status := "up", ports := [], isUnresolved := false }).1.id =
        (Host.id { id := 5, projectId := 1, subnetId := none, ip := "unresolved",
                   dnsName := some "web1", status := some "unresolved",
                   whoisData := none }) ∧
     (nmapFindOrCreateHost
      { subnets := [], ports := [], evidence := [], nextId := 6,
        hosts := [{ id := 5, projectId := 1, subnetId := none, ip := "unresolved",
                    dnsName := some "web1", status := some "unresolved",
                    whoisData := none }] } 1
      { ip := some "10.0.0.9", hostname := some "web1", hostnames := ["web1"],
        status := "up", ports := [], isUnresolved := false }).1.ip = "10.0.0.9" ∧
     (nmapFindOrCreateHost
      { subnets := [], ports := [], evidence := [], nextId := 6,
        hosts := [{ id := 5, projectId := 1, subnetId := none, ip := "unresolved",
                    dnsName := some "web1", status := some "unresolved",
                    whoisData := none }] } 1
      { ip := some "10.0.0.9", hostname := some "web1", hostnames := ["web1"],
        status := "up", ports := [], isUnresolved := false }).1.subnetId =
        (findOrCreateSubnetForIp
          { subnets := [], ports := [], evidence := [], nextId := 6,
            hosts := [{ id := 5, projectId := 1, subnetId := none, ip := "unresolved",
                        dnsName := some "web1", status := some "unresolved",
                        whoisData := none }] } 1 "10.0.0.9").1 ∧
     (findOrCreateSubnetForIp
          { subnets := [], ports := [], evidence := [], nextId := 6,
            hosts := [{ id := 5, projectId := 1, subnetId := none, ip := "unresolved",
                        dnsName := some "web1", status := some "unresolved",
                        whoisData := none }] } 1 "10.0.0.9").1.isSome ∧
     (nmapFindOrCreateHost
      { subnets := [], ports := [], evidence := [], nextId := 6,
        hosts := [{ id := 5, projectId := 1, subnetId := none, ip := "unresolved",
                    dnsName := some "web1", status := some "unresolved",
                    whoisData := none }] } 1
      { ip := some "10.0.0.9", hostname := some "web1", hostnames := ["web1"],
        status := "up", ports := [], isUnresolved := false }).2.2.hosts.length =
        (Db.hosts
          { subnets := [], ports := [], evidence := [], nextId := 6,
            hosts := [{ id := 5, projectId := 1, subnetId := none,
                        ip := "unresolved", dnsName := some "web1",
                        status := some "unresolved", whoisData := none }] }).length) ∧
    ((gowitnessFindOrCreateHost
      { subnets := [], ports := [], evidence := [], nextId := 6,
        hosts := [{ id := 5, projectId := 1, subnetId := none, ip := "unresolved",
                    dnsName := some "web1", status := some "unresolved",
                    whoisData := none }] } 1
      { host := "10.0.0.9", port := 443, protocol := "https", isIp := true,
        hostname := some "web1", rawUrl := "https://10.0.0.9/" }).2.1 = false ∧
     (gowitnessFindOrCreateHost
      { subnets := [], ports := [], evidence := [], nextId := 6,
        hosts := [{ id := 5, projectId := 1, subnetId := none, ip := "unresolved",
                    dnsName := some "web1", status := some "unresolved",
                    whoisData := none }] } 1
      { host := "10.0.0.9", port := 443, protocol := "https", isIp := true,
        hostname := some "web1", rawUrl := "https://10.0.0.9/" }).1.id =
        (Host.id { id := 5, projectId := 1, subnetId := none, ip := "unresolved",
                   dnsName := some "web1", status := some "unresolved",
                   whoisData := none }) ∧
     (gowitnessFindOrCreateHost
      { subnets := [], ports := [], evidence := [], nextId := 6,
        hosts := [{ id := 5, projectId := 1, subnetId := none, ip := "unresolved",
                    dnsName := some "web1", status := some "unresolved",
                    whoisData := none }] } 1
      { host := "10.0.0.9", port := 443, protocol := "https", isIp := true,
        hostname := some "web1", rawUrl := "https://10.0.0.9/" }).1.ip = "10.0.0.9" ∧
     (gowitnessFindOrCreateHost
      { subnets := [], ports := [], evidence := [], nextId := 6,
        hosts := [{ id := 5, projectId := 1, subnetId := none, ip := "unresolved",
                    dnsName := some "web1", status := some "unresolved",
                    whoisData := none }] } 1
      { host := "10.0.0.9", port := 443, protocol := "https", isIp := true,
        hostname := some "web1", rawUrl := "https://10.0.0.9/" }).1.subnetId =
        (findOrCreateSubnetForIp
          { subnets := [], ports := [], evidence := [], nextId := 6,
            hosts := [{ id := 5, projectId := 1, subnetId := none, ip := "unresolved",
                        dnsName := some "web1", status := some "unresolved",
                        whoisData := none }] } 1 "10.0.0.9").1 ∧
     (gowitnessFindOrCreateHost
      { subnets := [], ports := [], evidence := [], nextId := 6,
        hosts := [{ id := 5, projectId := 1, subnetId := none, ip := "unresolved",
                    dnsName := some "web1", status := some "unresolved",
                    whoisData := none }] } 1
      { host := "10.0.0.9", port := 443, protocol := "https", isIp := true,
        hostname := some "web1", rawUrl := "https://10.0.0.9/" }).2.2.hosts.length =
        (Db.hosts
          { subnets := [], ports := [], evidence := [], nextId := 6,
            hosts := [{ id := 5, projectId := 1, subnetId := none,
                        ip := "unresolved", dnsName := some "web1",
                        status := some "unresolved", whoisData := none }] }).length) :=
  c2_promotion
    { subnets := [], ports := [], evidence := [], nextId := 6,
      hosts := [{ id := 5, projectId := 1, subnetId := none, ip := "unresolved",
                  dnsName := some "web1", status := some "unresolved",
                  whoisData := none }] }
    1 "10.0.0.9" "web1" "up" "https" "https://10.0.0.9/" ["web1"] [] 443
    { id := 5, projectId := 1, subnetId := none, ip := "unresolved",
      dnsName := some "web1", status := some "unresolved", whoisData := none }
    (by decide) (by decide) (by decide) (by decide) (by decide) (by decide) (by decide)

/-- C3 counterexample: the claim says that for every importer two records
with the same real IP but different hostnames give two distinct hosts and
the second record never merges into or renames the first host.  The
plain-text importer matches by IP alone: importing `10.0.0.7 web2` into a
project whose only host is `(10.0.0.7, web1)` merges into that host
(`created = false`, still one host row) and renames it to `web2`. -/
theorem c3_counterexample :
    (textFindOrCreateHost
      { subnets := [], ports := [], evidence := [], nextId := 6,
        hosts := [{ id := 5, projectId := 1, subnetId := none, ip := "10.0.0.7",
                    dnsName := some "web1", status := some "unknown",
                    whoisData := none }] } 1
      { ip := "10.0.0.7", hostname := some "web2" }).2.1 = false ∧
    (textFindOrCreateHost
      { subnets := [], ports := [], evidence := [], nextId := 6,
        hosts := [{ id := 5, projectId := 1, subnetId := none, ip := "10.0.0.7",
                    dnsName := some "web1", status := some "unknown",
                    whoisData := none }] } 1
      { ip := "10.0.0.7", hostname := some "web2" }).1.id = 5 ∧
    (textFindOrCreateHost
      { subnets := [], ports := [], evidence := [], nextId := 6,
        hosts := [{ id := 5, projectId := 1, subnetId := none, ip := "10.0.0.7",
                    dnsName := some "web1", status := some "unknown",
                    whoisData := none }] } 1
      { ip := "10.0.0.7", hostname := some "web2" }).1.dnsName = some "web2" ∧
    (textFindOrCreateHost
      { subnets := [], ports := [], evidence := [], nextId := 6,
        hosts := [{ id := 5, projectId := 1, subnetId := none, ip := "10.0.0.7",
                    dnsName := some "web1", status := some "unknown",
                    whoisData := none }] } 1
      { ip := "10.0.0.7", hostname := some "web2" }).2.2.hosts.length = 1 := by
  refine ⟨by decide, by decide, by decide, by decide⟩

/-- C3 amended: the nmap reconciler keeps same-IP different-hostname records
apart — when no host with `(i, n₂)` and no sentinel host for `n₂` exists, a
record `(i, n₂)` creates a brand-new host row and leaves every existing row
in place — while the plain-text importer matches by IP alone and renames the
matched host instead of creating a second one. -/
theorem c3_identity_separation_amended
    (db : Db) (pid : Nat) (i n₁ n₂ st : String) (hs : List String)
    (ps : List NmapPort) (h0 : Host)
    (hi : strTruthy i = true) (hns : i ≠ "unresolved")
    (hn2 : pyStrip n₂ = n₂) (hnz2 : strTruthy n₂ = true)
    (hfind1 : db.hosts.find? (fun h =>
      decide (h.projectId = pid ∧ h.ip = i ∧ h.dnsName = some n₂)) = none)
    (hfind2 : db.hosts.find? (fun h =>
      decide (h.projectId = pid ∧ h.ip = "unresolved" ∧ h.dnsName = some n₂)) = none)
    (hfind3 : db.hosts.find? (fun h =>
      decide (h.projectId = pid ∧ h.ip = i)) = some h0)
    (hdns0 : h0.dnsName = some n₁) (hne : n₁ ≠ n₂) :
    ((nmapFindOrCreateHost db pid
      { ip := some i, hostname := some n₂, hostnames := hs, status := st,
        ports := ps, isUnresolved := false }).2.1 = true ∧
     (nmapFindOrCreateHost db pid
      { ip := some i, hostname := some n₂, hostnames := hs, status := st,
        ports := ps, isUnresolved := false }).1.ip = i ∧
     (nmapFindOrCreateHost db pid
      { ip := some i, hostname := some n₂, hostnames := hs, status := st,
        ports := ps, isUnresolved := false }).1.dnsName = some n₂ ∧
     (nmapFindOrCreateHost db pid
      { ip := some i, hostname := some n₂, hostnames := hs, status := st,
        ports := ps, isUnresolved := false }).2.2.hosts =
        db.hosts ++ [(nmapFindOrCreateHost db pid
          { ip := some i, hostname := some n₂, hostnames := hs, status := st,
            ports := ps, isUnresolved := false }).1]) ∧
    ((textFindOrCreateHost db pid { ip := i, hostname := some n₂ }).2.1 = false ∧
     (textFindOrCreateHost db pid { ip := i, hostname := some n₂ }).1.id = h0.id ∧
     (textFindOrCreateHost db pid { ip := i, hostname := some n₂ }).1.dnsName = some n₂ ∧
     (textFindOrCreateHost db pid
        { ip := i, hostname := some n₂ }).2.2.hosts.length = db.hosts.length) := by
  have hnorm : normStrOpt (some n₂) = some n₂ := by simp [normStrOpt, hn2, hnz2]
  constructor
  · unfold nmapFindOrCreateHost
    dsimp only
    simp only [hnorm, hi, eq_self_iff_true, if_true, Bool.false_eq_true, not_false_iff,
      true_and, and_true, hns, ne_eq, not_false_eq_true]
    rw [hfind1]
    dsimp only
    rw [hfind2]
    dsimp only
    refine ⟨rfl, rfl, rfl, ?_⟩
    rw [subnetResolver_hosts]
  · unfold textFindOrCreateHost
    dsimp only
    rw [hfind3]
    dsimp only
    unfold textUpdateExistingHost
    dsimp only
    have hcond : (optTruthy (some n₂) = true ∧
        (¬ optTruthy h0.dnsName = true ∨ ¬ h0.dnsName = some n₂)) := by
      refine ⟨by simp [optTruthy_some, hnz2], Or.inr ?_⟩
      simp [hdns0, hne]
    rw [if_pos hcond]
    simp [Db.updateHost]

/-- Witness for the amended C3 at a concrete project: an nmap record
`(10.0.0.7, web2)` next to an existing `(10.0.0.7, web1)` creates a second
host, while the same pair fed to the text importer renames the first. -/
theorem c3_identity_separation_amended_witness :
    ((nmapFindOrCreateHost
      { subnets := [], ports := [], evidence := [], nextId := 6,
        hosts := [{ id := 5, projectId := 1, subnetId := none, ip := "10.0.0.7",
                    dnsName := some "web1", status := some "unknown",
                    whoisData := none }] } 1
      { ip := some "10.0.0.7", hostname := some "web2", hostnames := ["web2"],
        status := "up", ports := [], isUnresolved := false }).2.1 = true ∧
     (nmapFindOrCreateHost
      { subnets := [], ports := [], evidence := [], nextId := 6,
        hosts := [{ id := 5, projectId := 1, subnetId := none, ip := "10.0.0.7",
                    dnsName := some "web1", status := some "unknown",
                    whoisData := none }] } 1
      { ip := some "10.0.0.7", hostname := some "web2", hostnames := ["web2"],
        status := "up", ports := [], isUnresolved := false }).1.ip = "10.0.0.7" ∧
     (nmapFindOrCreateHost
      { subnets := [], ports := [], evidence := [], nextId := 6,
        hosts := [{ id := 5, projectId := 1, subnetId := none, ip := "10.0.0.7",
                    dnsName := some "web1", status := some "unknown",
                    whoisData := none }] } 1
      { ip := some "10.0.0.7", hostname := some "web2", hostnames := ["web2"],
        status := "up", ports := [], isUnresolved := false }).1.dnsName = some "web2" ∧
     (nmapFindOrCreateHost
      { subnets := [], ports := [], evidence := [], nextId := 6,
        hosts := [{ id := 5, projectId := 1, subnetId := none, ip := "10.0.0.7",
                    dnsName := some "web1", status := some "unknown",
                    whoisData := none }] } 1
      { ip := some "10.0.0.7", hostname := some "web2", hostnames := ["web2"],
        status := "up", ports := [], isUnresolved := false }).2.2.hosts =
        (Db.hosts
          { subnets := [], ports := [], evidence := [], nextId := 6,
            hosts := [{ id := 5, projectId := 1, subnetId := none,
                        ip := "10.0.0.7", dnsName := some "web1",
                        status := some "unknown", whoisData := none }] }) ++
          [(nmapFindOrCreateHost
            { subnets := [], ports := [], evidence := [], nextId := 6,
              hosts := [{ id := 5, projectId := 1, subnetId := none, ip := "10.0.0.7",
                          dnsName := some "web1", status := some "unknown",
                          whoisData := none }] } 1
            { ip := some "10.0.0.7", hostname := some "web2", hostnames := ["web2"],
              status := "up", ports := [], isUnresolved := false }).1]) ∧
    ((textFindOrCreateHost
      { subnets := [], ports := [], evidence := [], nextId := 6,
        hosts := [{ id := 5, projectId := 1, subnetId := none, ip := "10.0.0.7",
                    dnsName := some "web1", status := some "unknown",
                    whoisData := none }] } 1
      { ip := "10.0.0.7", hostname := some "web2" }).2.1 = false ∧
     (textFindOrCreateHost
      { subnets := [], ports := [], evidence := [], nextId := 6,
        hosts := [{ id := 5, projectId := 1, subnetId := none, ip := "10.0.0.7",
                    dnsName := some "web1", status := some "unknown",
                    whoisData := none }] } 1
      { ip := "10.0.0.7", hostname := some "web2" }).1.id =
        (Host.id { id := 5, projectId := 1, subnetId := none, ip := "10.0.0.7",
                   dnsName := some "web1", status := some "unknown",
                   whoisData := none }) ∧
     (textFindOrCreateHost
      { subnets := [], ports := [], evidence := [], nextId := 6,
        hosts := [{ id := 5, projectId := 1, subnetId := none, ip := "10.0.0.7",
                    dnsName := some "web1", status := some "unknown",
                    whoisData := none }] } 1
      { ip := "10.0.0.7", hostname := some "web2" }).1.dnsName = some "web2" ∧
     (textFindOrCreateHost
      { subnets := [], ports := [], evidence := [], nextId := 6,
        hosts := [{ id := 5, projectId := 1, subnetId := none, ip := "10.0.0.7",
                    dnsName := some "web1", status := some "unknown",
                    whoisData := none }] } 1
      { ip := "10.0.0.7", hostname := some "web2" }).2.2.hosts.length =
        (Db.hosts
          { subnets := [], ports := [], evidence := [], nextId := 6,
            hosts := [{ id := 5, projectId := 1, subnetId := none,
                        ip := "10.0.0.7", dnsName := some "web1",
                        status := some "unknown", whoisData := none }] }).length) :=
  c3_identity_separation_amended
    { subnets := [], ports := [], evidence := [], nextId := 6,
      hosts := [{ id := 5, projectId := 1, subnetId := none, ip := "10.0.0.7",
                  dnsName := some "web1", status := some "unknown",
                  whoisData := none }] }
    1 "10.0.0.7" "web1" "web2" "up" ["web2"] []
    { id := 5, projectId := 1, subnetId := none, ip := "10.0.0.7",
      dnsName := some "web1", status := some "unknown", whoisData := none }
    (by decide) (by decide) (by decide) (by decide) (by decide) (by decide)
    (by decide) (by decide) (by decide)

/-- C4 counterexample: the claim extends human-data protection to host
fields such as `whois_data`, but the whois importer assigns
`host.whois_data = whois_data` unconditionally: importing a whois record for
`10.0.0.7` replaces a previously stored (e.g. manually curated) value. -/
theorem c4_counterexample :
    (Host.whoisData
      { id := 5, projectId := 1, subnetId := none, ip := "10.0.0.7",
        dnsName := none, status := some "unknown",
        whoisData := some [("asn", "AS-MANUAL")] }) = some [("asn", "AS-MANUAL")] ∧
    (whoisImportRecord
      { subnets := [], ports := [], evidence := [], nextId := 6,
        hosts := [{ id := 5, projectId := 1, subnetId := none, ip := "10.0.0.7",
                    dnsName := none, status := some "unknown",
                    whoisData := some [("asn", "AS-MANUAL")] }] } 1 "10.0.0.7"
      [("asn", "AS222")]).2.1 = false ∧
    (whoisImportRecord
      { subnets := [], ports := [], evidence := [], nextId := 6,
        hosts := [{ id := 5, projectId := 1, subnetId := none, ip := "10.0.0.7",
                    dnsName := none, status := some "unknown",
                    whoisData := some [("asn", "AS-MANUAL")] }] } 1 "10.0.0.7"
      [("asn", "AS222")]).1.whoisData = some [("asn", "AS222")] ∧
    some [("asn", "AS-MANUAL")] ≠ some [("asn", "AS222")] := by
  refine ⟨by decide, by decide, by decide, by decide⟩

/-- C4 amended: within a port merge, a field whose value was set by a human
(the port carries no `discovered_by` tool tag and the field is non-empty) is
not overwritten by the nmap or masscan importer — the nmap merge does then
stamp the port's `discovered_by` with its own tag — but host fields enjoy no
such protection (the whois importer overwrites `whois_data` unconditionally,
and the text importer can rename `dns_name`). -/
theorem c4_manual_protection_amended
    (p : NmapPort) (scanMeta : List (String × String)) (sat : Option Int)
    (ex exm : Port) (st : String)
    (hdb : ex.discoveredBy = none) (hdbm : exm.discoveredBy = none) :
    (optTruthy ex.serviceName = true →
      (nmapMergePort ex p scanMeta sat).1.serviceName = ex.serviceName) ∧
    (optTruthy ex.serviceVersion = true →
      (nmapMergePort ex p scanMeta sat).1.serviceVersion = ex.serviceVersion) ∧
    (optTruthy ex.banner = true →
      (nmapMergePort ex p scanMeta sat).1.banner = ex.banner) ∧
    (optTruthy ex.state = true →
      (nmapMergePort ex p scanMeta sat).1.state = ex.state) ∧
    (nmapMergePort ex p scanMeta sat).1.discoveredBy = some "nmap" ∧
    (optTruthy exm.state = true → masscanMergePort exm st sat = (exm, false)) := by
  have hIs : (decide (pyLower (ex.discoveredBy.getD "") = "nmap")) = false := by
    rw [hdb]; decide
  have hIsm : (decide (pyLower (exm.discoveredBy.getD "") = "masscan")) = false := by
    rw [hdbm]; decide
  refine ⟨?sn, ?sv, ?bn, ?st, ?db, ?ms⟩
  case sn =>
    intro h
    simp only [nmapMergePort, hIs]
    simp only [nmapMergeScannedAt_keep_serviceName, nmapMergeScanMeta_keep_serviceName,
      nmapMergeDiscovered_keep_serviceName, nmapMergeState_keep_serviceName,
      nmapMergeBanner_keep_serviceName, nmapMergeVersion_keep_serviceName]
    rw [nmapMergeService_skip p (ex, false) h]
  case sv =>
    intro h
    simp only [nmapMergePort, hIs]
    simp only [nmapMergeScannedAt_keep_serviceVersion, nmapMergeScanMeta_keep_serviceVersion,
      nmapMergeDiscovered_keep_serviceVersion, nmapMergeState_keep_serviceVersion,
      nmapMergeBanner_keep_serviceVersion]
    rw [nmapMergeVersion_skip p _ (by rw [nmapMergeService_keep_serviceVersion]; exact h)]
    rw [nmapMergeService_keep_serviceVersion]
  case bn =>
    intro h
    simp only [nmapMergePort, hIs]
    simp only [nmapMergeScannedAt_keep_banner, nmapMergeScanMeta_keep_banner,
      nmapMergeDiscovered_keep_banner, nmapMergeState_keep_banner]
    rw [nmapMergeBanner_skip _ _
      (by rw [nmapMergeVersion_keep_banner, nmapMergeService_keep_banner]; exact h)]
    rw [nmapMergeVersion_keep_banner, nmapMergeService_keep_banner]
  case st =>
    intro h
    simp only [nmapMergePort, hIs]
    simp only [nmapMergeScannedAt_keep_state, nmapMergeScanMeta_keep_state,
      nmapMergeDiscovered_keep_state]
    rw [nmapMergeState_skip p _
      (by rw [nmapMergeBanner_keep_state, nmapMergeVersion_keep_state,
        nmapMergeService_keep_state]; exact h)]
    rw [nmapMergeBanner_keep_state, nmapMergeVersion_keep_state, nmapMergeService_keep_state]
  case db =>
    simp only [nmapMergePort, hIs]
    simp only [nmapMergeScannedAt_keep_discoveredBy, nmapMergeScanMeta_keep_discoveredBy]
    rw [nmapMergeDiscovered_stamp _
      (by rw [nmapMergeState_keep_discoveredBy, nmapMergeBanner_keep_discoveredBy,
        nmapMergeVersion_keep_discoveredBy, nmapMergeService_keep_discoveredBy]; exact hdb)]
  case ms =>
    intro h
    simp only [masscanMergePort, hIsm]
    rw [masscanMergeState_skip st (exm, false) h]
    simp

/-- Witness for the amended C4: a manually entered port (no tool tag) with
service `custom-svc` keeps all four fields under an nmap merge reporting
different data, and a manual `filtered` state survives a masscan merge. -/
theorem c4_manual_protection_amended_witness :
    (optTruthy (Port.serviceName
      { id := 9, hostId := 5, protocol := "tcp", number := 443,
        state := some "open", serviceName := some "custom-svc",
        serviceVersion := some "1.0", banner := some "my banner",
        discoveredBy := none, scanMetadata := none, scannedAt := none }) = true →
      (nmapMergePort
        { id := 9, hostId := 5, protocol := "tcp", number := 443,
          state := some "open", serviceName := some "custom-svc",
          serviceVersion := some "1.0", banner := some "my banner",
          discoveredBy := none, scanMetadata := none, scannedAt := none }
        { portId := 443, protocol := "tcp", state := "open",
          serviceName := some "https", product := some "nginx",
          version := some "1.25", extrainfo := none, ostype := none,
          tunnel := none, scripts := [] } [] none).1.serviceName =
        some "custom-svc") ∧
    (optTruthy (some "1.0" : Option String) = true →
      (nmapMergePort
        { id := 9, hostId := 5, protocol := "tcp", number := 443,
          state := some "open", serviceName := some "custom-svc",
          serviceVersion := some "1.0", banner := some "my banner",
          discoveredBy := none, scanMetadata := none, scannedAt := none }
        { portId := 443, protocol := "tcp", state := "open",
          serviceName := some "https", product := some "nginx",
          version := some "1.25", extrainfo := none, ostype := none,
          tunnel := none, scripts := [] } [] none).1.serviceVersion =
        some "1.0") ∧
    (optTruthy (some "my banner" : Option String) = true →
      (nmapMergePort
        { id := 9, hostId := 5, protocol := "tcp", number := 443,
          state := some "open", serviceName := some "custom-svc",
          serviceVersion := some "1.0", banner := some "my banner",
          discoveredBy := none, scanMetadata := none, scannedAt := none }
        { portId := 443, protocol := "tcp", state := "open",
          serviceName := some "https", product := some "nginx",
          version := some "1.25", extrainfo := none, ostype := none,
          tunnel := none, scripts := [] } [] none).1.banner =
        some "my banner") ∧
    (optTruthy (some "open" : Option String) = true →
      (nmapMergePort
        { id := 9, hostId := 5, protocol := "tcp", number := 443,
          state := some "open", serviceName := some "custom-svc",
          serviceVersion := some "1.0", banner := some "my banner",
          discoveredBy := none, scanMetadata := none, scannedAt := none }
        { portId := 443, protocol := "tcp", state := "open",
          serviceName := some "https", product := some "nginx",
          version := some "1.25", extrainfo := none, ostype := none,
          tunnel := none, scripts := [] } [] none).1.state =
        some "open") ∧
    (nmapMergePort
      { id := 9, hostId := 5, protocol := "tcp", number := 443,
        state := some "open", serviceName := some "custom-svc",
        serviceVersion := some "1.0", banner := some "my banner",
        discoveredBy := none, scanMetadata := none, scannedAt := none }
      { portId := 443, protocol := "tcp", state := "open",
        serviceName := some "https", product := some "nginx",
        version := some "1.25", extrainfo := none, ostype := none,
        tunnel := none, scripts := [] } [] none).1.discoveredBy = some "nmap" ∧
    (optTruthy (Port.state
      { id := 10, hostId := 5, protocol := "tcp", number := 80,
        state := some "filtered", serviceName := none, serviceVersion := none,
        banner := none, discoveredBy := none, scanMetadata := none,
        scannedAt := none }) = true →
      masscanMergePort
        { id := 10, hostId := 5, protocol := "tcp", number := 80,
          state := some "filtered", serviceName := none, serviceVersion := none,
          banner := none, discoveredBy := none, scanMetadata := none,
          scannedAt := none } "open" none =
        ({ id := 10, hostId := 5, protocol := "tcp", number := 80,
           state := some "filtered", serviceName := none, serviceVersion := none,
           banner := none, discoveredBy := none, scanMetadata := none,
           scannedAt := none }, false)) :=
  c4_manual_protection_amended
    { portId := 443, protocol := "tcp", state := "open",
      serviceName := some "https", product := some "nginx",
      version := some "1.25", extrainfo := none, ostype := none,
      tunnel := none, scripts := [] } [] none
    { id := 9, hostId := 5, protocol := "tcp", number := 443,
      state := some "open", serviceName := some "custom-svc",
      serviceVersion := some "1.0", banner := some "my banner",
      discoveredBy := none, scanMetadata := none, scannedAt := none }
    { id := 10, hostId := 5, protocol := "tcp", number := 80,
      state := some "filtered", serviceName := none, serviceVersion := none,
      banner := none, discoveredBy := none, scanMetadata := none,
      scannedAt := none } "open" (by decide) (by decide)

/-- C5: the port-merge frame rule.  For a matched port whose
`discovered_by` does not equal the importing tool tag, the nmap merge leaves
each non-empty field among service name, version, banner and state exactly
as it was, keeps a populated `discovered_by`, and never touches
`scan_metadata` or `scanned_at`; the masscan merge likewise leaves a port
with a non-empty state entirely unchanged.  (Updates are thus possible only
when the existing value is empty or the port was discovered by the same
tool.) -/
theorem c5_port_merge_frame
    (p : NmapPort) (scanMeta : List (String × String)) (sat : Option Int)
    (ex exm : Port) (st : String)
    (hf : pyLower (ex.discoveredBy.getD "") ≠ "nmap")
    (hfm : pyLower (exm.discoveredBy.getD "") ≠ "masscan") :
    (optTruthy ex.serviceName = true →
      (nmapMergePort ex p scanMeta sat).1.serviceName = ex.serviceName) ∧
    (optTruthy ex.serviceVersion = true →
      (nmapMergePort ex p scanMeta sat).1.serviceVersion = ex.serviceVersion) ∧
    (optTruthy ex.banner = true →
      (nmapMergePort ex p scanMeta sat).1.banner = ex.banner) ∧
    (optTruthy ex.state = true →
      (nmapMergePort ex p scanMeta sat).1.state = ex.state) ∧
    (optTruthy ex.discoveredBy = true →
      (nmapMergePort ex p scanMeta sat).1.discoveredBy = ex.discoveredBy) ∧
    (nmapMergePort ex p scanMeta sat).1.scanMetadata = ex.scanMetadata ∧
    (nmapMergePort ex p scanMeta sat).1.scannedAt = ex.scannedAt ∧
    (optTruthy exm.state = true → masscanMergePort exm st sat = (exm, false)) := by
  have hIs : (decide (pyLower (ex.discoveredBy.getD "") = "nmap")) = false := by
    simp [hf]
  have hIsm : (decide (pyLower (exm.discoveredBy.getD "") = "masscan")) = false := by
    simp [hfm]
  refine ⟨?sn, ?sv, ?bn, ?st, ?db, ?sm, ?sa, ?ms⟩
  case sn =>
    intro h
    simp only [nmapMergePort, hIs]
    simp only [nmapMergeScannedAt_keep_serviceName, nmapMergeScanMeta_keep_serviceName,
      nmapMergeDiscovered_keep_serviceName, nmapMergeState_keep_serviceName,
      nmapMergeBanner_keep_serviceName, nmapMergeVersion_keep_serviceName]
    rw [nmapMergeService_skip p (ex, false) h]
  case sv =>
    intro h
    simp only [nmapMergePort, hIs]
    simp only [nmapMergeScannedAt_keep_serviceVersion, nmapMergeScanMeta_keep_serviceVersion,
      nmapMergeDiscovered_keep_serviceVersion, nmapMergeState_keep_serviceVersion,
      nmapMergeBanner_keep_serviceVersion]
    rw [nmapMergeVersion_skip p _ (by rw [nmapMergeService_keep_serviceVersion]; exact h)]
    rw [nmapMergeService_keep_serviceVersion]
  case bn =>
    intro h
    simp only [nmapMergePort, hIs]
    simp only [nmapMergeScannedAt_keep_banner, nmapMergeScanMeta_keep_banner,
      nmapMergeDiscovered_keep_banner, nmapMergeState_keep_banner]
    rw [nmapMergeBanner_skip _ _
      (by rw [nmapMergeVersion_keep_banner, nmapMergeService_keep_banner]; exact h)]
    rw [nmapMergeVersion_keep_banner, nmapMergeService_keep_banner]
  case st =>
    intro h
    simp only [nmapMergePort, hIs]
    simp only [nmapMergeScannedAt_keep_state, nmapMergeScanMeta_keep_state,
      nmapMergeDiscovered_keep_state]
    rw [nmapMergeState_skip p _
      (by rw [nmapMergeBanner_keep_state, nmapMergeVersion_keep_state,
        nmapMergeService_keep_state]; exact h)]
    rw [nmapMergeBanner_keep_state, nmapMergeVersion_keep_state, nmapMergeService_keep_state]
  case db =>
    intro h
    simp only [nmapMergePort, hIs]
    simp only [nmapMergeScannedAt_keep_discoveredBy, nmapMergeScanMeta_keep_discoveredBy]
    rw [nmapMergeDiscovered_skip _
      (by rw [nmapMergeState_keep_discoveredBy, nmapMergeBanner_keep_discoveredBy,
        nmapMergeVersion_keep_discoveredBy, nmapMergeService_keep_discoveredBy]; exact h)]
    rw [nmapMergeState_keep_discoveredBy, nmapMergeBanner_keep_discoveredBy,
      nmapMergeVersion_keep_discoveredBy, nmapMergeService_keep_discoveredBy]
  case sm =>
    simp only [nmapMergePort, hIs]
    simp only [nmapMergeScannedAt_keep_scanMetadata]
    rw [nmapMergeScanMeta_false]
    rw [nmapMergeDiscovered_keep_scanMetadata, nmapMergeState_keep_scanMetadata,
      nmapMergeBanner_keep_scanMetadata, nmapMergeVersion_keep_scanMetadata,
      nmapMergeService_keep_scanMetadata]
  case sa =>
    simp only [nmapMergePort, hIs]
    rw [nmapMergeScannedAt_false]
    rw [nmapMergeScanMeta_keep_scannedAt, nmapMergeDiscovered_keep_scannedAt,
      nmapMergeState_keep_scannedAt, nmapMergeBanner_keep_scannedAt,
      nmapMergeVersion_keep_scannedAt, nmapMergeService_keep_scannedAt]
  case ms =>
    intro h
    simp only [masscanMergePort, hIsm]
    rw [masscanMergeState_skip st (exm, false) h]
    simp

/-- Witness for C5: a port populated by gowitness is untouched by an nmap
merge reporting different data, and a port discovered by nmap is untouched
by a masscan merge. -/
theorem c5_port_merge_frame_witness :
    (optTruthy
        (Port.serviceName
          { id := 9, hostId := 5, protocol := "tcp", number := 443,
            state := some "open", serviceName := some "http-alt",
            serviceVersion := some "2.0", banner := some "Caddy",
            discoveredBy := some "gowitness",
            scanMetadata := some [("scan_start", "1")], scannedAt := some 17 }) = true →
      (nmapMergePort
        { id := 9, hostId := 5, protocol := "tcp", number := 443,
            state := some "open", serviceName := some "http-alt",
            serviceVersion := some "2.0", banner := some "Caddy",
            discoveredBy := some "gowitness",
            scanMetadata := some [("scan_start", "1")], scannedAt := some 17 }
        { portId := 443, protocol := "tcp", state := "closed",
            serviceName := some "https", product := some "nginx",
            version := some "1.25", extrainfo := none, ostype := none,
            tunnel := some "ssl", scripts := [] } [("nmap_args", "-sV")] (some 99)).1.serviceName = some "http-alt") ∧
    (optTruthy (some "2.0" : Option String) = true →
      (nmapMergePort
        { id := 9, hostId := 5, protocol := "tcp", number := 443,
            state := some "open", serviceName := some "http-alt",
            serviceVersion := some "2.0", banner := some "Caddy",
            discoveredBy := some "gowitness",
            scanMetadata := some [("scan_start", "1")], scannedAt := some 17 }
        { portId := 443, protocol := "tcp", state := "closed",
            serviceName := some "https", product := some "nginx",
            version := some "1.25", extrainfo := none, ostype := none,
            tunnel := some "ssl", scripts := [] } [("nmap_args", "-sV")] (some 99)).1.serviceVersion = some "2.0") ∧
    (optTruthy (some "Caddy" : Option String) = true →
      (nmapMergePort
        { id := 9, hostId := 5, protocol := "tcp", number := 443,
            state := some "open", serviceName := some "http-alt",
            serviceVersion := some "2.0", banner := some "Caddy",
            discoveredBy := some "gowitness",
            scanMetadata := some [("scan_start", "1")], scannedAt := some 17 }
        { portId := 443, protocol := "tcp", state := "closed",
            serviceName := some "https", product := some "nginx",
            version := some "1.25", extrainfo := none, ostype := none,
            tunnel := some "ssl", scripts := [] } [("nmap_args", "-sV")] (some 99)).1.banner = some "Caddy") ∧
    (optTruthy (some "open" : Option String) = true →
      (nmapMergePort
        { id := 9, hostId := 5, protocol := "tcp", number := 443,
            state := some "open", serviceName := some "http-alt",
            serviceVersion := some "2.0", banner := some "Caddy",
            discoveredBy := some "gowitness",
            scanMetadata := some [("scan_start", "1")], scannedAt := some 17 }
        { portId := 443, protocol := "tcp", state := "closed",
            serviceName := some "https", product := some "nginx",
            version := some "1.25", extrainfo := none, ostype := none,
            tunnel := some "ssl", scripts := [] } [("nmap_args", "-sV")] (some 99)).1.state = some "open") ∧
    (optTruthy (some "gowitness" : Option String) = true →
      (nmapMergePort
        { id := 9, hostId := 5, protocol := "tcp", number := 443,
            state := some "open", serviceName := some "http-alt",
            serviceVersion := some "2.0", banner := some "Caddy",
            discoveredBy := some "gowitness",
            scanMetadata := some [("scan_start", "1")], scannedAt := some 17 }
        { portId := 443, protocol := "tcp", state := "closed",
            serviceName := some "https", product := some "nginx",
            version := some "1.25", extrainfo := none, ostype := none,
            tunnel := some "ssl", scripts := [] } [("nmap_args", "-sV")] (some 99)).1.discoveredBy = some "gowitness") ∧
    (nmapMergePort
        { id := 9, hostId := 5, protocol := "tcp", number := 443,
            state := some "open", serviceName := some "http-alt",
            serviceVersion := some "2.0", banner := some "Caddy",
            discoveredBy := some "gowitness",
            scanMetadata := some [("scan_start", "1")], scannedAt := some 17 }
        { portId := 443, protocol := "tcp", state := "closed",
            serviceName := some "https", product := some "nginx",
            version := some "1.25", extrainfo := none, ostype := none,
            tunnel := some "ssl", scripts := [] } [("nmap_args", "-sV")] (some 99)).1.scanMetadata =
      some [("scan_start", "1")] ∧
    (nmapMergePort
        { id := 9, hostId := 5, protocol := "tcp", number := 443,
            state := some "open", serviceName := some "http-alt",
            serviceVersion := some "2.0", banner := some "Caddy",
            discoveredBy := some "gowitness",
            scanMetadata := some [("scan_start", "1")], scannedAt := some 17 }
        { portId := 443, protocol := "tcp", state := "closed",
            serviceName := some "https", product := some "nginx",
            version := some "1.25", extrainfo := none, ostype := none,
            tunnel := some "ssl", scripts := [] } [("nmap_args", "-sV")] (some 99)).1.scannedAt = some 17 ∧
    (optTruthy (some "open" : Option String) = true →
      masscanMergePort
        { id := 10, hostId := 5, protocol := "tcp", number := 80,
            state := some "open", serviceName := none, serviceVersion := none,
            banner := none, discoveredBy := some "nmap", scanMetadata := none,
            scannedAt := some 3 } "open" (some 99) =
        ({ id := 10, hostId := 5, protocol := "tcp", number := 80,
            state := some "open", serviceName := none, serviceVersion := none,
            banner := none, discoveredBy := some "nmap", scanMetadata := none,
            scannedAt := some 3 }, false)) :=
  c5_port_merge_frame
    { portId := 443, protocol := "tcp", state := "closed",
            serviceName := some "https", product := some "nginx",
            version := some "1.25", extrainfo := none, ostype := none,
            tunnel := some "ssl", scripts := [] } [("nmap_args", "-sV")] (some 99)
    { id := 9, hostId := 5, protocol := "tcp", number := 443,
            state := some "open", serviceName := some "http-alt",
            serviceVersion := some "2.0", banner := some "Caddy",
            discoveredBy := some "gowitness",
            scanMetadata := some [("scan_start", "1")], scannedAt := some 17 }
    { id := 10, hostId := 5, protocol := "tcp", number := 80,
            state := some "open", serviceName := none, serviceVersion := none,
            banner := none, discoveredBy := some "nmap", scanMetadata := none,
            scannedAt := some 3 } "open"
    (by decide) (by decide)

/-- C6 counterexample: the claim says an online host is never moved to
offline, unknown or unresolved by any import step.  Importing an nmap
hostname-only (unresolved) record whose hostname matches an existing online
host overwrites that host's status with `unresolved`. -/
theorem c6_counterexample :
    (Host.status
      { id := 5, projectId := 1, subnetId := some 2, ip := "10.0.0.5",
        dnsName := some "web1", status := some "online",
        whoisData := none }) = some "online" ∧
    (nmapFindOrCreateHost
      { subnets := [], ports := [], evidence := [], nextId := 6,
        hosts := [{ id := 5, projectId := 1, subnetId := some 2, ip := "10.0.0.5",
                    dnsName := some "web1", status := some "online",
                    whoisData := none }] } 1
      { ip := none, hostname := some "web1", hostnames := ["web1"],
        status := "unknown", ports := [], isUnresolved := true }).2.1 = false ∧
    (nmapFindOrCreateHost
      { subnets := [], ports := [], evidence := [], nextId := 6,
        hosts := [{ id := 5, projectId := 1, subnetId := some 2, ip := "10.0.0.5",
                    dnsName := some "web1", status := some "online",
                    whoisData := none }] } 1
      { ip := none, hostname := some "web1", hostnames := ["web1"],
        status := "unknown", ports := [], isUnresolved := true }).1.id = 5 ∧
    (nmapFindOrCreateHost
      { subnets := [], ports := [], evidence := [], nextId := 6,
        hosts := [{ id := 5, projectId := 1, subnetId := some 2, ip := "10.0.0.5",
                    dnsName := some "web1", status := some "online",
                    whoisData := none }] } 1
      { ip := none, hostname := some "web1", hostnames := ["web1"],
        status := "unknown", ports := [], isUnresolved := true }).1.status =
      some "unresolved" := by
  refine ⟨by decide, by decide, by decide, by decide⟩

/-- C6 amended: import never downgrades an online host, with two exceptions
visible in the merge code: (1) an nmap hostname-only (unresolved) record
that matches an existing host by hostname stamps it `unresolved`; (2)
gowitness promotion of a sentinel-IP host to a real IP resets its status to
`unknown`.  Outside those two paths an online host stays online: the nmap
merge on a non-unresolved record, the gowitness merge outside the promotion
branch, and the masscan merge all preserve `online`, and the text merge
never touches status at all. -/
theorem c6_status_no_downgrade_amended :
    (∀ (db : Db) (pid : Nat) (nh : NmapHost) (e : Host),
      e.status = some "online" → nh.isUnresolved = false →
      (nmapUpdateExistingHost db pid nh e).1.status = some "online") ∧
    (∀ (db : Db) (pid : Nat) (parsed : ParsedURL) (e : Host),
      e.status = some "online" → ¬ (parsed.isIp = true ∧ e.ip = "unresolved") →
      (gowitnessUpdateExistingHost db pid parsed e).1.status = some "online") ∧
    (∀ e : Host, e.status = some "online" →
      (masscanUpdateExistingHost e).status = some "online") ∧
    (∀ (th : TextHost) (e : Host),
      (textUpdateExistingHost th e).status = e.status) := by
  refine ⟨?nmap, ?gw, ?ms, ?txt⟩
  case nmap =>
    intro db pid nh e hstat hu
    unfold nmapUpdateExistingHost
    dsimp only
    rw [hu]
    simp only [Bool.false_eq_true, if_false]
    repeat' split
    all_goals simp_all
  case gw =>
    intro db pid parsed e hstat hnp
    unfold gowitnessUpdateExistingHost
    dsimp only
    repeat' split
    all_goals simp_all
  case ms =>
    intro e hstat
    unfold masscanUpdateExistingHost
    split
    · simp_all
    · exact hstat
  case txt =>
    intro th e
    unfold textUpdateExistingHost
    split <;> rfl

/-- Witness for the amended C6 at concrete inputs: an online host keeps its
status under an nmap down-report, a gowitness revisit, and a masscan hit,
and the text merge leaves status untouched. -/
theorem c6_status_no_downgrade_amended_witness :
    ((Host.status
      { id := 5, projectId := 1, subnetId := some 2, ip := "10.0.0.5",
        dnsName := some "web1", status := some "online", whoisData := none }) =
      some "online" ∧
    (NmapHost.isUnresolved
      { ip := some "10.0.0.5", hostname := some "web1", hostnames := ["web1"],
        status := "down", ports := [], isUnresolved := false }) = false) ∧
    (nmapUpdateExistingHost
      { subnets := [], hosts := [], ports := [], evidence := [], nextId := 9 } 1
      { ip := some "10.0.0.5", hostname := some "web1", hostnames := ["web1"],
        status := "down", ports := [], isUnresolved := false }
      { id := 5, projectId := 1, subnetId := some 2, ip := "10.0.0.5",
        dnsName := some "web1", status := some "online",
        whoisData := none }).1.status = some "online" ∧
    (gowitnessUpdateExistingHost
      { subnets := [], hosts := [], ports := [], evidence := [], nextId := 9 } 1
      { host := "10.0.0.5", port := 443, protocol := "https", isIp := true,
        hostname := none, rawUrl := "https://10.0.0.5/" }
      { id := 5, projectId := 1, subnetId := some 2, ip := "10.0.0.5",
        dnsName := some "web1", status := some "online",
        whoisData := none }).1.status = some "online" ∧
    (masscanUpdateExistingHost
      { id := 5, projectId := 1, subnetId := some 2, ip := "10.0.0.5",
        dnsName := some "web1", status := some "online",
        whoisData := none }).status = some "online" ∧
    (textUpdateExistingHost { ip := "10.0.0.5", hostname := some "web9" }
      { id := 5, projectId := 1, subnetId := some 2, ip := "10.0.0.5",
        dnsName := some "web1", status := some "online",
        whoisData := none }).status =
      (Host.status
        { id := 5, projectId := 1, subnetId := some 2, ip := "10.0.0.5",
          dnsName := some "web1", status := some "online", whoisData := none }) :=
  ⟨⟨by decide, by decide⟩,
   c6_status_no_downgrade_amended.1
     { subnets := [], hosts := [], ports := [], evidence := [], nextId := 9 } 1
     { ip := some "10.0.0.5", hostname := some "web1", hostnames := ["web1"],
       status := "down", ports := [], isUnresolved := false }
     { id := 5, projectId := 1, subnetId := some 2, ip := "10.0.0.5",
       dnsName := some "web1", status := some "online", whoisData := none }
     (by decide) (by decide),
   c6_status_no_downgrade_amended.2.1
     { subnets := [], hosts := [], ports := [], evidence := [], nextId := 9 } 1
     { host := "10.0.0.5", port := 443, protocol := "https", isIp := true,
       hostname := none, rawUrl := "https://10.0.0.5/" }
     { id := 5, projectId := 1, subnetId := some 2, ip := "10.0.0.5",
       dnsName := some "web1", status := some "online", whoisData := none }
     (by decide) (by decide),
   c6_status_no_downgrade_amended.2.2.1
     { id := 5, projectId := 1, subnetId := some 2, ip := "10.0.0.5",
       dnsName := some "web1", status := some "online", whoisData := none }
     (by decide),
   c6_status_no_downgrade_amended.2.2.2
     { ip := "10.0.0.5", hostname := some "web9" }
     { id := 5, projectId := 1, subnetId := some 2, ip := "10.0.0.5",
       dnsName := some "web1", status := some "online", whoisData := none }⟩

/-- C8 counterexample: the claim says that once a metadata evidence row with
the same caption prefix exists from the same tool, importing a value with a
differing detail text adds no new row.  The gowitness dedup key is prefix
plus value: with `Server: Apache [gowitness]` already stored for the port, a
new header `nginx` is not matched and a second `Server:` row is appended. -/
theorem c8_counterexample :
    (metadataEvidenceExists
      { subnets := [], hosts := [], ports := [], nextId := 4,
        evidence :=
          [{ id := 3, projectId := 1, hostId := some 5, portId := some 7,
             filename := "metadata-server",
             caption := some "Server: Apache [gowitness]", sha256 := none,
             storedPath := none, source := some "gowitness",
             sourceFile := some "dir" }] } 7 "server" "nginx") = false ∧
    pyStartsWith "Server: Apache [gowitness]" "Server: " = true ∧
    (gowitnessServerStep
      { subnets := [], hosts := [], ports := [], nextId := 4,
        evidence :=
          [{ id := 3, projectId := 1, hostId := some 5, portId := some 7,
             filename := "metadata-server",
             caption := some "Server: Apache [gowitness]", sha256 := none,
             storedPath := none, source := some "gowitness",
             sourceFile := some "dir" }] } 1 5 7 (some "nginx") "dir").1 = 1 ∧
    (gowitnessServerStep
      { subnets := [], hosts := [], ports := [], nextId := 4,
        evidence :=
          [{ id := 3, projectId := 1, hostId := some 5, portId := some 7,
             filename := "metadata-server",
             caption := some "Server: Apache [gowitness]", sha256 := none,
             storedPath := none, source := some "gowitness",
             sourceFile := some "dir" }] } 1 5 7
      (some "nginx") "dir").2.evidence.length = 2 := by
  refine ⟨by decide, by decide, by decide, by decide⟩

/-- C8 amended: the caption-prefix dedup behaves as claimed for the nmap
importer — any existing nmap text row on the port whose caption starts with
`"Server:"` suppresses a new row even when the detail differs — while the
gowitness dedup key is prefix plus value, so only an identical value is
suppressed and a differing detail text adds a new row.  Evidence rows with a
null source (human-created) are invisible to both dedup checks, and both
steps only ever append: existing rows are never modified or removed. -/
lemma prefix_ite_evidence (l : List Evidence) (c : Prop) [Decidable c]
    (a b : Nat × Db) (ha : l <+: a.2.evidence) (hb : l <+: b.2.evidence) :
    l <+: (if c then a else b).2.evidence := by
  split
  · exact ha
  · exact hb

theorem c8_evidence_dedup_amended :
    (∀ (db : Db) (pid hid : Nat) (port : Port) (p : NmapPort) (sf : String),
      evidenceCaptionExists db port.id "Server:" = true →
      nmapServerEvidenceStep db pid hid port p sf = (0, db)) ∧
    (∀ (db : Db) (pid hid portId : Nat) (v sd : String),
      metadataEvidenceExists db portId "server" v = true →
      gowitnessServerStep db pid hid portId (some v) sd = (0, db)) ∧
    (∀ (db : Db) (pid : Nat) (pre : String) (hr : Evidence), hr.source = none →
      evidenceCaptionExists { db with evidence := hr :: db.evidence } pid pre =
        evidenceCaptionExists db pid pre) ∧
    (∀ (db : Db) (portId : Nat) (t v : String) (hr : Evidence), hr.source = none →
      metadataEvidenceExists { db with evidence := hr :: db.evidence } portId t v =
        metadataEvidenceExists db portId t v) ∧
    (∀ (db : Db) (pid hid : Nat) (port : Port) (p : NmapPort) (sf : String),
      db.evidence <+: (nmapServerEvidenceStep db pid hid port p sf).2.evidence) ∧
    (∀ (db : Db) (pid hid portId : Nat) (sh : Option String) (sd : String),
      db.evidence <+: (gowitnessServerStep db pid hid portId sh sd).2.evidence) := by
  refine ⟨?na, ?ga, ?nh, ?gh, ?np, ?gp⟩
  case na =>
    intro db pid hid port p sf h
    unfold nmapServerEvidenceStep
    dsimp only
    rw [h]
    simp
  case ga =>
    intro db pid hid portId v sd h
    unfold gowitnessServerStep
    simp [h]
  case nh =>
    intro db pid pre hr hsrc
    unfold evidenceCaptionExists
    simp [hsrc]
  case gh =>
    intro db portId t v hr hsrc
    unfold metadataEvidenceExists
    simp [hsrc]
  case np =>
    intro db pid hid port p sf
    unfold nmapServerEvidenceStep
    dsimp only
    refine prefix_ite_evidence db.evidence _ _ _ ?_ (List.prefix_refl _)
    unfold nmapAddEvidence
    dsimp only
    exact List.prefix_append db.evidence _
  case gp =>
    intro db pid hid portId sh sd
    unfold gowitnessServerStep
    dsimp only
    refine prefix_ite_evidence db.evidence _ _ _ ?_ (List.prefix_refl _)
    refine prefix_ite_evidence db.evidence _ _ _ ?_ (List.prefix_refl _)
    unfold gowitnessAddEvidence
    dsimp only
    exact List.prefix_append db.evidence _

/-- Witness for the amended C8: a store holding one nmap `Server:` row and
one gowitness `Server: nginx` row on port 7 suppresses both steps, a
human-created row does not affect either dedup check, and both steps keep
the existing evidence list as a prefix. -/
theorem c8_evidence_dedup_amended_witness :
    nmapServerEvidenceStep
      { subnets := [], hosts := [], ports := [], nextId := 3,
        evidence :=
          [{ id := 1, projectId := 1, hostId := some 5, portId := some 7,
             filename := "server", caption := some "Server: Apache [nmap]",
             sha256 := none, storedPath := none, source := some "nmap",
             sourceFile := some "scan.xml" },
           { id := 2, projectId := 1, hostId := some 5, portId := some 7,
             filename := "metadata-server",
             caption := some "Server: nginx [gowitness]", sha256 := none,
             storedPath := none, source := some "gowitness",
             sourceFile := some "dir" }] } 1 5
      { id := 7, hostId := 5, protocol := "tcp", number := 443,
        state := some "open", serviceName := none, serviceVersion := none,
        banner := none, discoveredBy := some "nmap", scanMetadata := none,
        scannedAt := none }
      { portId := 443, protocol := "tcp", state := "open",
        serviceName := none, product := some "Apache2", version := none,
        extrainfo := none, ostype := none, tunnel := none, scripts := [] } "scan.xml" =
      (0,
        { subnets := [], hosts := [], ports := [], nextId := 3,
          evidence :=
            [{ id := 1, projectId := 1, hostId := some 5, portId := some 7,
               filename := "server", caption := some "Server: Apache [nmap]",
               sha256 := none, storedPath := none, source := some "nmap",
               sourceFile := some "scan.xml" },
             { id := 2, projectId := 1, hostId := some 5, portId := some 7,
               filename := "metadata-server",
               caption := some "Server: nginx [gowitness]", sha256 := none,
               storedPath := none, source := some "gowitness",
               sourceFile := some "dir" }] }) ∧
    gowitnessServerStep
      { subnets := [], hosts := [], ports := [], nextId := 3,
        evidence :=
          [{ id := 1, projectId := 1, hostId := some 5, portId := some 7,
             filename := "server", caption := some "Server: Apache [nmap]",
             sha256 := none, storedPath := none, source := some "nmap",
             sourceFile := some "scan.xml" },
           { id := 2, projectId := 1, hostId := some 5, portId := some 7,
             filename := "metadata-server",
             caption := some "Server: nginx [gowitness]", sha256 := none,
             storedPath := none, source := some "gowitness",
             sourceFile := some "dir" }] } 1 5 7 (some "nginx") "dir" =
      (0,
        { subnets := [], hosts := [], ports := [], nextId := 3,
          evidence :=
            [{ id := 1, projectId := 1, hostId := some 5, portId := some 7,
               filename := "server", caption := some "Server: Apache [nmap]",
               sha256 := none, storedPath := none, source := some "nmap",
               sourceFile := some "scan.xml" },
             { id := 2, projectId := 1, hostId := some 5, portId := some 7,
               filename := "metadata-server",
               caption := some "Server: nginx [gowitness]", sha256 := none,
               storedPath := none, source := some "gowitness",
               sourceFile := some "dir" }] }) ∧
    evidenceCaptionExists
      { subnets := [], hosts := [], ports := [], nextId := 3,
        evidence :=
          [{ id := 9, projectId := 1, hostId := some 5, portId := some 7,
             filename := "note", caption := some "Server: manual note",
             sha256 := none, storedPath := none, source := none,
             sourceFile := none },
           { id := 1, projectId := 1, hostId := some 5, portId := some 7,
             filename := "server", caption := some "Server: Apache [nmap]",
             sha256 := none, storedPath := none, source := some "nmap",
             sourceFile := some "scan.xml" },
           { id := 2, projectId := 1, hostId := some 5, portId := some 7,
             filename := "metadata-server",
             caption := some "Server: nginx [gowitness]", sha256 := none,
             storedPath := none, source := some "gowitness",
             sourceFile := some "dir" }] } 7 "Server:" =
      evidenceCaptionExists
        { subnets := [], hosts := [], ports := [], nextId := 3,
          evidence :=
            [{ id := 1, projectId := 1, hostId := some 5, portId := some 7,
               filename := "server", caption := some "Server: Apache [nmap]",
               sha256 := none, storedPath := none, source := some "nmap",
               sourceFile := some "scan.xml" },
             { id := 2, projectId := 1, hostId := some 5, portId := some 7,
               filename := "metadata-server",
               caption := some "Server: nginx [gowitness]", sha256 := none,
               storedPath := none, source := some "gowitness",
               sourceFile := some "dir" }] } 7 "Server:" ∧
    metadataEvidenceExists
      { subnets := [], hosts := [], ports := [], nextId := 3,
        evidence :=
          [{ id := 9, projectId := 1, hostId := some 5, portId := some 7,
             filename := "note", caption := some "Server: manual note",
             sha256 := none, storedPath := none, source := none,
             sourceFile := none },
           { id := 1, projectId := 1, hostId := some 5, portId := some 7,
             filename := "server", caption := some "Server: Apache [nmap]",
             sha256 := none, storedPath := none, source := some "nmap",
             sourceFile := some "scan.xml" },
           { id := 2, projectId := 1, hostId := some 5, portId := some 7,
             filename := "metadata-server",
             caption := some "Server: nginx [gowitness]", sha256 := none,
             storedPath := none, source := some "gowitness",
             sourceFile := some "dir" }] } 7 "server" "nginx" =
      metadataEvidenceExists
        { subnets := [], hosts := [], ports := [], nextId := 3,
          evidence :=
            [{ id := 1, projectId := 1, hostId := some 5, portId := some 7,
               filename := "server", caption := some "Server: Apache [nmap]",
               sha256 := none, storedPath := none, source := some "nmap",
               sourceFile := some "scan.xml" },
             { id := 2, projectId := 1, hostId := some 5, portId := some 7,
               filename := "metadata-server",
               caption := some "Server: nginx [gowitness]", sha256 := none,
               storedPath := none, source := some "gowitness",
               sourceFile := some "dir" }] } 7 "server" "nginx" ∧
    Db.evidence
      { subnets := [], hosts := [], ports := [], nextId := 3,
        evidence :=
          [{ id := 1, projectId := 1, hostId := some 5, portId := some 7,
             filename := "server", caption := some "Server: Apache [nmap]",
             sha256 := none, storedPath := none, source := some "nmap",
             sourceFile := some "scan.xml" },
           { id := 2, projectId := 1, hostId := some 5, portId := some 7,
             filename := "metadata-server",
             caption := some "Server: nginx [gowitness]", sha256 := none,
             storedPath := none, source := some "gowitness",
             sourceFile := some "dir" }] } <+:
      (nmapServerEvidenceStep
        { subnets := [], hosts := [], ports := [], nextId := 3,
          evidence :=
            [{ id := 1, projectId := 1, hostId := some 5, portId := some 7,
               filename := "server", caption := some "Server: Apache [nmap]",
               sha256 := none, storedPath := none, source := some "nmap",
               sourceFile := some "scan.xml" },
             { id := 2, projectId := 1, hostId := some 5, portId := some 7,
               filename := "metadata-server",
               caption := some "Server: nginx [gowitness]", sha256 := none,
               storedPath := none, source := some "gowitness",
               sourceFile := some "dir" }] } 1 5
        { id := 7, hostId := 5, protocol := "tcp", number := 443,
          state := some "open", serviceName := none, serviceVersion := none,
          banner := none, discoveredBy := some "nmap", scanMetadata := none,
          scannedAt := none }
        { portId := 443, protocol := "tcp", state := "open",
          serviceName := none, product := some "Apache2", version := none,
          extrainfo := none, ostype := none, tunnel := none, scripts := [] } "scan.xml").2.evidence ∧
    Db.evidence
      { subnets := [], hosts := [], ports := [], nextId := 3,
        evidence :=
          [{ id := 1, projectId := 1, hostId := some 5, portId := some 7,
             filename := "server", caption := some "Server: Apache [nmap]",
             sha256 := none, storedPath := none, source := some "nmap",
             sourceFile := some "scan.xml" },
           { id := 2, projectId := 1, hostId := some 5, portId := some 7,
             filename := "metadata-server",
             caption := some "Server: nginx [gowitness]", sha256 := none,
             storedPath := none, source := some "gowitness",
             sourceFile := some "dir" }] } <+:
      (gowitnessServerStep
        { subnets := [], hosts := [], ports := [], nextId := 3,
          evidence :=
            [{ id := 1, projectId := 1, hostId := some 5, portId := some 7,
               filename := "server", caption := some "Server: Apache [nmap]",
               sha256 := none, storedPath := none, source := some "nmap",
               sourceFile := some "scan.xml" },
             { id := 2, projectId := 1, hostId := some 5, portId := some 7,
               filename := "metadata-server",
               caption := some "Server: nginx [gowitness]", sha256 := none,
               storedPath := none, source := some "gowitness",
               sourceFile := some "dir" }] } 1 5 7 (some "nginx") "dir").2.evidence :=
  ⟨c8_evidence_dedup_amended.1
    { subnets := [], hosts := [], ports := [], nextId := 3,
      evidence :=
        [{ id := 1, projectId := 1, hostId := some 5, portId := some 7,
           filename := "server", caption := some "Server: Apache [nmap]",
           sha256 := none, storedPath := none, source := some "nmap",
           sourceFile := some "scan.xml" },
         { id := 2, projectId := 1, hostId := some 5, portId := some 7,
           filename := "metadata-server",
           caption := some "Server: nginx [gowitness]", sha256 := none,
           storedPath := none, source := some "gowitness",
           sourceFile := some "dir" }] } 1 5
    { id := 7, hostId := 5, protocol := "tcp", number := 443,
      state := some "open", serviceName := none, serviceVersion := none,
      banner := none, discoveredBy := some "nmap", scanMetadata := none,
      scannedAt := none }
    { portId := 443, protocol := "tcp", state := "open",
      serviceName := none, product := some "Apache2", version := none,
      extrainfo := none, ostype := none, tunnel := none, scripts := [] } "scan.xml" (by decide),
   c8_evidence_dedup_amended.2.1
    { subnets := [], hosts := [], ports := [], nextId := 3,
      evidence :=
        [{ id := 1, projectId := 1, hostId := some 5, portId := some 7,
           filename := "server", caption := some "Server: Apache [nmap]",
           sha256 := none, storedPath := none, source := some "nmap",
           sourceFile := some "scan.xml" },
         { id := 2, projectId := 1, hostId := some 5, portId := some 7,
           filename := "metadata-server",
           caption := some "Server: nginx [gowitness]", sha256 := none,
           storedPath := none, source := some "gowitness",
           sourceFile := some "dir" }] } 1 5 7 "nginx" "dir" (by decide),
   c8_evidence_dedup_amended.2.2.1
    { subnets := [], hosts := [], ports := [], nextId := 3,
      evidence :=
        [{ id := 1, projectId := 1, hostId := some 5, portId := some 7,
           filename := "server", caption := some "Server: Apache [nmap]",
           sha256 := none, storedPath := none, source := some "nmap",
           sourceFile := some "scan.xml" },
         { id := 2, projectId := 1, hostId := some 5, portId := some 7,
           filename := "metadata-server",
           caption := some "Server: nginx [gowitness]", sha256 := none,
           storedPath := none, source := some "gowitness",
           sourceFile := some "dir" }] } 7 "Server:"
    { id := 9, projectId := 1, hostId := some 5, portId := some 7,
      filename := "note", caption := some "Server: manual note",
      sha256 := none, storedPath := none, source := none,
      sourceFile := none } (by decide),
   c8_evidence_dedup_amended.2.2.2.1
    { subnets := [], hosts := [], ports := [], nextId := 3,
      evidence :=
        [{ id := 1, projectId := 1, hostId := some 5, portId := some 7,
           filename := "server", caption := some "Server: Apache [nmap]",
           sha256 := none, storedPath := none, source := some "nmap",
           sourceFile := some "scan.xml" },
         { id := 2, projectId := 1, hostId := some 5, portId := some 7,
           filename := "metadata-server",
           caption := some "Server: nginx [gowitness]", sha256 := none,
           storedPath := none, source := some "gowitness",
           sourceFile := some "dir" }] } 7 "server" "nginx"
    { id := 9, projectId := 1, hostId := some 5, portId := some 7,
      filename := "note", caption := some "Server: manual note",
      sha256 := none, storedPath := none, source := none,
      sourceFile := none } (by decide),
   c8_evidence_dedup_amended.2.2.2.2.1
    { subnets := [], hosts := [], ports := [], nextId := 3,
      evidence :=
        [{ id := 1, projectId := 1, hostId := some 5, portId := some 7,
           filename := "server", caption := some "Server: Apache [nmap]",
           sha256 := none, storedPath := none, source := some "nmap",
           sourceFile := some "scan.xml" },
         { id := 2, projectId := 1, hostId := some 5, portId := some 7,
           filename := "metadata-server",
           caption := some "Server: nginx [gowitness]", sha256 := none,
           storedPath := none, source := some "gowitness",
           sourceFile := some "dir" }] } 1 5
    { id := 7, hostId := 5, protocol := "tcp", number := 443,
      state := some "open", serviceName := none, serviceVersion := none,
      banner := none, discoveredBy := some "nmap", scanMetadata := none,
      scannedAt := none }
    { portId := 443, protocol := "tcp", state := "open",
      serviceName := none, product := some "Apache2", version := none,
      extrainfo := none, ostype := none, tunnel := none, scripts := [] } "scan.xml",
   c8_evidence_dedup_amended.2.2.2.2.2
    { subnets := [], hosts := [], ports := [], nextId := 3,
      evidence :=
        [{ id := 1, projectId := 1, hostId := some 5, portId := some 7,
           filename := "server", caption := some "Server: Apache [nmap]",
           sha256 := none, storedPath := none, source := some "nmap",
           sourceFile := some "scan.xml" },
         { id := 2, projectId := 1, hostId := some 5, portId := some 7,
           filename := "metadata-server",
           caption := some "Server: nginx [gowitness]", sha256 := none,
           storedPath := none, source := some "gowitness",
           sourceFile := some "dir" }] } 1 5 7 (some "nginx") "dir"⟩

/-- C9: subnet resolution is deterministic and idempotent.  `cidrForIp` is a
function of the IP string alone; a valid IPv4 address maps to the
`a.b.c.0/24` network containing it, a valid IPv6 address to its containing
/64, while invalid strings and the sentinel map to no subnet; and a second
call of `findOrCreateSubnetForIp` with the same project and IP returns the
same subnet id without touching the store again. -/
theorem c9_subnet_resolver :
    (∀ s a b c d, parseIPv4 (pyLower (pyStrip s)) = some (a, b, c, d) →
      cidrForIp s =
        some (Nat.repr a ++ "." ++ Nat.repr b ++ "." ++ Nat.repr c ++ ".0/24")) ∧
    (∀ s gs, parseIPv4 (pyLower (pyStrip s)) = none →
      parseIPv6 (pyLower (pyStrip s)) = some gs →
      cidrForIp s = some (v6GroupsString (gs.take 4 ++ [0, 0, 0, 0]) ++ "/64")) ∧
    (∀ s, parseIPv4 (pyLower (pyStrip s)) = none →
      parseIPv6 (pyLower (pyStrip s)) = none → cidrForIp s = none) ∧
    cidrForIp "unresolved" = none ∧
    (∀ db pid ip sid db₁, findOrCreateSubnetForIp db pid ip = (some sid, db₁) →
      findOrCreateSubnetForIp db₁ pid ip = (some sid, db₁)) := by
  refine ⟨?v4, ?v6, ?inv, by decide, ?idem⟩
  case v4 =>
    intro s a b c d h4
    by_cases hg : (¬ strTruthy (pyLower (pyStrip s)) ∨ pyLower (pyStrip s) = "unresolved")
    · exfalso
      rcases hg with hg | hg
      · have hd : (pyLower (pyStrip s)).data = [] := by
          simpa [strTruthy, List.isEmpty_iff] using hg
        rw [parseIPv4_nil _ hd] at h4
        exact Option.noConfusion h4
      · rw [hg] at h4
        rw [show parseIPv4 "unresolved" = none from by decide] at h4
        exact Option.noConfusion h4
    · simp only [cidrForIp, if_neg hg, h4]
  case v6 =>
    intro s gs h4 h6
    by_cases hg : (¬ strTruthy (pyLower (pyStrip s)) ∨ pyLower (pyStrip s) = "unresolved")
    · exfalso
      rcases hg with hg | hg
      · have hd : (pyLower (pyStrip s)).data = [] := by
          simpa [strTruthy, List.isEmpty_iff] using hg
        rw [parseIPv6_nil _ hd] at h6
        exact Option.noConfusion h6
      · rw [hg] at h6
        rw [show parseIPv6 "unresolved" = none from by decide] at h6
        exact Option.noConfusion h6
    · simp only [cidrForIp, if_neg hg, h4, h6]
  case inv =>
    intro s h4 h6
    by_cases hg : (¬ strTruthy (pyLower (pyStrip s)) ∨ pyLower (pyStrip s) = "unresolved")
    · simp only [cidrForIp, if_pos hg]
    · simp only [cidrForIp, if_neg hg, h4, h6]
  case idem =>
    intro db pid ip sid db₁ h
    unfold findOrCreateSubnetForIp at h ⊢
    cases hc : cidrForIp ip with
    | none =>
      rw [hc] at h
      dsimp only at h
      exact absurd (congrArg Prod.fst h) (by simp)
    | some cidr =>
      rw [hc] at h
      dsimp only at h ⊢
      cases hf : db.subnets.find?
          (fun sn => decide (sn.projectId = pid ∧ sn.cidr = cidr)) with
      | some sn =>
        rw [hf] at h
        dsimp only at h
        have h1 : some sn.id = some sid := congrArg Prod.fst h
        have h2 : db = db₁ := congrArg Prod.snd h
        subst h2
        rw [hf]
        dsimp only
        rw [h1]
      | none =>
        rw [hf] at h
        dsimp only at h
        have h1 : some db.nextId = some sid := congrArg Prod.fst h
        have h2 := congrArg Prod.snd h
        dsimp only at h2
        subst h2
        have h1' : sid = db.nextId := by simpa using h1.symm
        subst h1'
        dsimp only
        rw [List.find?_append, hf]
        simp

/-- Witness for C9: the /24 and /64 bucketing, the invalid case, and the
idempotence of the resolver, each instantiated at a concrete input. -/
theorem c9_subnet_resolver_witness :
    cidrForIp "10.0.0.5" =
      some (Nat.repr 10 ++ "." ++ Nat.repr 0 ++ "." ++ Nat.repr 0 ++ ".0/24") ∧
    cidrForIp "2001:db8::4:5" =
      some (v6GroupsString (([8193, 3512, 0, 0, 0, 0, 4, 5] : List Nat).take 4 ++
        [0, 0, 0, 0]) ++ "/64") ∧
    cidrForIp "10.0.0" = none ∧
    findOrCreateSubnetForIp
      { subnets := [{ id := 1, projectId := 7, cidr := "10.0.0.0/24", name := none }],
        hosts := [], ports := [], evidence := [], nextId := 2 } 7 "10.0.0.5" =
      (some 1,
        { subnets := [{ id := 1, projectId := 7, cidr := "10.0.0.0/24", name := none }],
          hosts := [], ports := [], evidence := [], nextId := 2 }) :=
  ⟨c9_subnet_resolver.1 "10.0.0.5" 10 0 0 5 (by decide),
   c9_subnet_resolver.2.1 "2001:db8::4:5" [8193, 3512, 0, 0, 0, 0, 4, 5]
     (by decide) (by decide),
   c9_subnet_resolver.2.2.1 "10.0.0" (by decide) (by decide),
   c9_subnet_resolver.2.2.2.2
     { subnets := [], hosts := [], ports := [], evidence := [], nextId := 1 } 7
     "10.0.0.5" 1
     { subnets := [{ id := 1, projectId := 7, cidr := "10.0.0.0/24", name := none }],
       hosts := [], ports := [], evidence := [], nextId := 2 }
     (by decide)⟩

/-- C10: the batch import route.  Every uploaded file contributes exactly
one per-file result (`files_processed` equals the number of uploads), every
numeric counter of the aggregated response is the sum of the per-file
counters, the aggregated errors are the concatenation of the per-file
(filename-prefixed) error lists, the reported format is the common per-file
format or `"mixed"` when they differ, a file whose importer raises yields
the structured zero-counter result with its single prefixed error message,
and removing such a failing file from a batch leaves the other files'
aggregated counters unchanged. -/
lemma importScan_filesProcessed (runImp : Upload → Except String ImportResult)
    (uploads : List Upload) :
    (importScan runImp uploads).filesProcessed = uploads.length := by
  cases uploads with
  | nil => rfl
  | cons u us => simp [importScan, aggregateImportResults]

lemma importScan_hostsCreated (runImp : Upload → Except String ImportResult)
    (uploads : List Upload) :
    (importScan runImp uploads).hostsCreated =
      (uploads.map fun u => (processUpload runImp u).1.hostsCreated).sum := by
  cases uploads with
  | nil => rfl
  | cons u us =>
    simp only [importScan, aggregateImportResults, List.map_cons]
    rw [List.foldl_cons]
    rw [foldl_aggStep_hostsCreated]
    simp [aggStep]
    rfl

lemma importScan_hostsUpdated (runImp : Upload → Except String ImportResult)
    (uploads : List Upload) :
    (importScan runImp uploads).hostsUpdated =
      (uploads.map fun u => (processUpload runImp u).1.hostsUpdated).sum := by
  cases uploads with
  | nil => rfl
  | cons u us =>
    simp only [importScan, aggregateImportResults, List.map_cons]
    rw [List.foldl_cons]
    rw [foldl_aggStep_hostsUpdated]
    simp [aggStep]
    rfl

lemma importScan_subnetsUpdated (runImp : Upload → Except String ImportResult)
    (uploads : List Upload) :
    (importScan runImp uploads).subnetsUpdated =
      (uploads.map fun u => (processUpload runImp u).1.subnetsUpdated).sum := by
  cases uploads with
  | nil => rfl
  | cons u us =>
    simp only [importScan, aggregateImportResults, List.map_cons]
    rw [List.foldl_cons]
    rw [foldl_aggStep_subnetsUpdated]
    simp [aggStep]
    rfl

lemma importScan_portsCreated (runImp : Upload → Except String ImportResult)
    (uploads : List Upload) :
    (importScan runImp uploads).portsCreated =
      (uploads.map fun u => (processUpload runImp u).1.portsCreated).sum := by
  cases uploads with
  | nil => rfl
  | cons u us =>
    simp only [importScan, aggregateImportResults, List.map_cons]
    rw [List.foldl_cons]
    rw [foldl_aggStep_portsCreated]
    simp [aggStep]
    rfl

lemma importScan_portsUpdated (runImp : Upload → Except String ImportResult)
    (uploads : List Upload) :
    (importScan runImp uploads).portsUpdated =
      (uploads.map fun u => (processUpload runImp u).1.portsUpdated).sum := by
  cases uploads with
  | nil => rfl
  | cons u us =>
    simp only [importScan, aggregateImportResults, List.map_cons]
    rw [List.foldl_cons]
    rw [foldl_aggStep_portsUpdated]
    simp [aggStep]
    rfl

lemma importScan_evidenceCreated (runImp : Upload → Except String ImportResult)
    (uploads : List Upload) :
    (importScan runImp uploads).evidenceCreated =
      (uploads.map fun u => (processUpload runImp u).1.evidenceCreated).sum := by
  cases uploads with
  | nil => rfl
  | cons u us =>
    simp only [importScan, aggregateImportResults, List.map_cons]
    rw [List.foldl_cons]
    rw [foldl_aggStep_evidenceCreated]
    simp [aggStep]
    rfl

lemma importScan_notesCreated (runImp : Upload → Except String ImportResult)
    (uploads : List Upload) :
    (importScan runImp uploads).notesCreated =
      (uploads.map fun u => (processUpload runImp u).1.notesCreated).sum := by
  cases uploads with
  | nil => rfl
  | cons u us =>
    simp only [importScan, aggregateImportResults, List.map_cons]
    rw [List.foldl_cons]
    rw [foldl_aggStep_notesCreated]
    simp [aggStep]
    rfl

lemma importScan_screenshotsImported (runImp : Upload → Except String ImportResult)
    (uploads : List Upload) :
    (importScan runImp uploads).screenshotsImported =
      (uploads.map fun u => (processUpload runImp u).1.screenshotsImported).sum := by
  cases uploads with
  | nil => rfl
  | cons u us =>
    simp only [importScan, aggregateImportResults, List.map_cons]
    rw [List.foldl_cons]
    rw [foldl_aggStep_screenshotsImported]
    simp [aggStep]
    rfl

lemma importScan_metadataRecordsImported (runImp : Upload → Except String ImportResult)
    (uploads : List Upload) :
    (importScan runImp uploads).metadataRecordsImported =
      (uploads.map fun u => (processUpload runImp u).1.metadataRecordsImported).sum := by
  cases uploads with
  | nil => rfl
  | cons u us =>
    simp only [importScan, aggregateImportResults, List.map_cons]
    rw [List.foldl_cons]
    rw [foldl_aggStep_metadataRecordsImported]
    simp [aggStep]
    rfl

lemma importScan_skipped (runImp : Upload → Except String ImportResult)
    (uploads : List Upload) :
    (importScan runImp uploads).skipped =
      (uploads.map fun u => (processUpload runImp u).1.skipped).sum := by
  cases uploads with
  | nil => rfl
  | cons u us =>
    simp only [importScan, aggregateImportResults, List.map_cons]
    rw [List.foldl_cons]
    rw [foldl_aggStep_skipped]
    simp [aggStep]
    rfl

lemma importScan_errors (runImp : Upload → Except String ImportResult)
    (uploads : List Upload) :
    (importScan runImp uploads).errors =
      (uploads.map fun u => (processUpload runImp u).1.errors).flatten := by
  cases uploads with
  | nil => rfl
  | cons u us =>
    simp only [importScan, aggregateImportResults, List.map_cons]
    rw [List.foldl_cons]
    rw [foldl_aggStep_errors]
    simp [aggStep]
    rfl

lemma processUpload_error (runImp : Upload → Except String ImportResult)
    (u : Upload) (msg : String)
    (hext : extensionAllowed (pyLower (pyStrip u.filename)) = true)
    (hemp : fdIsEmpty u.content = false) (herr : runImp u = .error msg) :
    processUpload runImp u = (zeroResultWith [u.filename ++ ": " ++ msg], "unknown") := by
  unfold processUpload
  rw [if_neg (by simp [hext])]
  rw [if_neg (by simp [hemp])]
  rw [herr]

theorem c10_batch_aggregation :
    (∀ (runImp : Upload → Except String ImportResult) (uploads : List Upload),
      (importScan runImp uploads).filesProcessed = uploads.length) ∧
    (∀ (runImp : Upload → Except String ImportResult) (uploads : List Upload),
      (importScan runImp uploads).hostsCreated =
        (uploads.map fun u => (processUpload runImp u).1.hostsCreated).sum) ∧
    (∀ (runImp : Upload → Except String ImportResult) (uploads : List Upload),
      (importScan runImp uploads).hostsUpdated =
        (uploads.map fun u => (processUpload runImp u).1.hostsUpdated).sum) ∧
    (∀ (runImp : Upload → Except String ImportResult) (uploads : List Upload),
      (importScan runImp uploads).subnetsUpdated =
        (uploads.map fun u => (processUpload runImp u).1.subnetsUpdated).sum) ∧
    (∀ (runImp : Upload → Except String ImportResult) (uploads : List Upload),
      (importScan runImp uploads).portsCreated =
        (uploads.map fun u => (processUpload runImp u).1.portsCreated).sum) ∧
    (∀ (runImp : Upload → Except String ImportResult) (uploads : List Upload),
      (importScan runImp uploads).portsUpdated =
        (uploads.map fun u => (processUpload runImp u).1.portsUpdated).sum) ∧
    (∀ (runImp : Upload → Except String ImportResult) (uploads : List Upload),
      (importScan runImp uploads).evidenceCreated =
        (uploads.map fun u => (processUpload runImp u).1.evidenceCreated).sum) ∧
    (∀ (runImp : Upload → Except String ImportResult) (uploads : List Upload),
      (importScan runImp uploads).notesCreated =
        (uploads.map fun u => (processUpload runImp u).1.notesCreated).sum) ∧
    (∀ (runImp : Upload → Except String ImportResult) (uploads : List Upload),
      (importScan runImp uploads).screenshotsImported =
        (uploads.map fun u => (processUpload runImp u).1.screenshotsImported).sum) ∧
    (∀ (runImp : Upload → Except String ImportResult) (uploads : List Upload),
      (importScan runImp uploads).metadataRecordsImported =
        (uploads.map fun u => (processUpload runImp u).1.metadataRecordsImported).sum) ∧
    (∀ (runImp : Upload → Except String ImportResult) (uploads : List Upload),
      (importScan runImp uploads).skipped =
        (uploads.map fun u => (processUpload runImp u).1.skipped).sum) ∧
    (∀ (runImp : Upload → Except String ImportResult) (uploads : List Upload),
      (importScan runImp uploads).errors =
        (uploads.map fun u => (processUpload runImp u).1.errors).flatten) ∧
    (∀ (runImp : Upload → Except String ImportResult) (uploads : List Upload)
        (f : String) (fs' : List String),
      uploads.map (fun u => (processUpload runImp u).2) = f :: fs' →
      (importScan runImp uploads).format =
        (if fs'.all (fun g => g = f) then f else "mixed")) ∧
    (∀ (runImp : Upload → Except String ImportResult) (u : Upload) (msg : String),
      extensionAllowed (pyLower (pyStrip u.filename)) = true →
      fdIsEmpty u.content = false → runImp u = .error msg →
      processUpload runImp u =
        (zeroResultWith [u.filename ++ ": " ++ msg], "unknown")) ∧
    (∀ (runImp : Upload → Except String ImportResult) (us₁ us₂ : List Upload)
        (u : Upload) (msg : String),
      extensionAllowed (pyLower (pyStrip u.filename)) = true →
      fdIsEmpty u.content = false → runImp u = .error msg →
      (importScan runImp (us₁ ++ u :: us₂)).hostsCreated =
        (importScan runImp (us₁ ++ us₂)).hostsCreated ∧
      (importScan runImp (us₁ ++ u :: us₂)).errors =
        (us₁.map fun x => (processUpload runImp x).1.errors).flatten ++
          (u.filename ++ ": " ++ msg) ::
            (us₂.map fun x => (processUpload runImp x).1.errors).flatten) := by
  refine ⟨importScan_filesProcessed, ?hostsCreated, ?hostsUpdated, ?subnetsUpdated,
    ?portsCreated, ?portsUpdated, ?evidenceCreated, ?notesCreated,
    ?screenshotsImported, ?metadataRecordsImported, ?skipped, ?errs, ?fmt,
    ?fatal, ?iso⟩
  case hostsCreated => exact importScan_hostsCreated
  case hostsUpdated => exact importScan_hostsUpdated
  case subnetsUpdated => exact importScan_subnetsUpdated
  case portsCreated => exact importScan_portsCreated
  case portsUpdated => exact importScan_portsUpdated
  case evidenceCreated => exact importScan_evidenceCreated
  case notesCreated => exact importScan_notesCreated
  case screenshotsImported => exact importScan_screenshotsImported
  case metadataRecordsImported => exact importScan_metadataRecordsImported
  case skipped => exact importScan_skipped
  case errs => exact importScan_errors
  case fmt =>
    intro runImp uploads f fs' h
    cases uploads with
    | nil => simp at h
    | cons u us =>
      simp only [importScan, aggregateImportResults, List.map_cons] at h ⊢
      injection h with h1 h2
      have h2' : List.map (Prod.snd ∘ processUpload runImp) us = fs' := h2
      rw [List.map_map, h2', h1]
  case fatal => exact processUpload_error
  case iso =>
    intro runImp us₁ us₂ u msg hext hemp herr
    have hpu := processUpload_error runImp u msg hext hemp herr
    constructor
    · rw [importScan_hostsCreated, importScan_hostsCreated]
      rw [List.map_append, List.map_append, List.map_cons]
      rw [List.sum_append, List.sum_append, List.sum_cons]
      rw [hpu]
      simp [zeroResultWith]
    · rw [importScan_errors]
      rw [List.map_append, List.map_cons]
      rw [List.flatten_append, List.flatten_cons]
      rw [hpu]
      simp [zeroResultWith]

/-- Witness for C10 at a concrete two-file batch: one file imports
successfully, the other raises; the batch is fully processed, counters sum,
errors concatenate with filename prefixes, the mixed format is reported, the
failing file yields the structured zero-counter result, and dropping the
failing file leaves the other file's counters unchanged. -/
theorem c10_batch_aggregation_witness :
    (importScan
      (fun v => if v.filename = "a.txt" then
        Except.ok
          ({ format := "text", hostsCreated := 2,
             errors := ["bad line 3"] } : ImportResult)
      else Except.error "boom")
      [({ filename := "a.txt", content := FileData.text "10.0.0.7 web1" } : Upload),
       ({ filename := "b.xml", content := FileData.text "not xml" } : Upload)]).filesProcessed =
      (List.length [({ filename := "a.txt", content := FileData.text "10.0.0.7 web1" } : Upload),
       ({ filename := "b.xml", content := FileData.text "not xml" } : Upload)]) ∧
    (importScan
      (fun v => if v.filename = "a.txt" then
        Except.ok
          ({ format := "text", hostsCreated := 2,
             errors := ["bad line 3"] } : ImportResult)
      else Except.error "boom")
      [({ filename := "a.txt", content := FileData.text "10.0.0.7 web1" } : Upload),
       ({ filename := "b.xml", content := FileData.text "not xml" } : Upload)]).hostsCreated =
      (List.map (fun u => (processUpload
        (fun v => if v.filename = "a.txt" then
        Except.ok
          ({ format := "text", hostsCreated := 2,
             errors := ["bad line 3"] } : ImportResult)
      else Except.error "boom") u).1.hostsCreated)
        [({ filename := "a.txt", content := FileData.text "10.0.0.7 web1" } : Upload),
       ({ filename := "b.xml", content := FileData.text "not xml" } : Upload)]).sum ∧
    (importScan
      (fun v => if v.filename = "a.txt" then
        Except.ok
          ({ format := "text", hostsCreated := 2,
             errors := ["bad line 3"] } : ImportResult)
      else Except.error "boom")
      [({ filename := "a.txt", content := FileData.text "10.0.0.7 web1" } : Upload),
       ({ filename := "b.xml", content := FileData.text "not xml" } : Upload)]).errors =
      (List.map (fun u => (processUpload
        (fun v => if v.filename = "a.txt" then
        Except.ok
          ({ format := "text", hostsCreated := 2,
             errors := ["bad line 3"] } : ImportResult)
      else Except.error "boom") u).1.errors)
        [({ filename := "a.txt", content := FileData.text "10.0.0.7 web1" } : Upload),
       ({ filename := "b.xml", content := FileData.text "not xml" } : Upload)]).flatten ∧
    (importScan
      (fun v => if v.filename = "a.txt" then
        Except.ok
          ({ format := "text", hostsCreated := 2,
             errors := ["bad line 3"] } : ImportResult)
      else Except.error "boom")
      [({ filename := "a.txt", content := FileData.text "10.0.0.7 web1" } : Upload),
       ({ filename := "b.xml", content := FileData.text "not xml" } : Upload)]).format =
      (if (["unknown"].all fun g => g = "text") then "text" else "mixed") ∧
    processUpload
      (fun v => if v.filename = "a.txt" then
        Except.ok
          ({ format := "text", hostsCreated := 2,
             errors := ["bad line 3"] } : ImportResult)
      else Except.error "boom")
      { filename := "b.xml", content := FileData.text "not xml" } =
      (zeroResultWith ["b.xml" ++ ": " ++ "boom"], "unknown") ∧
    ((importScan
      (fun v => if v.filename = "a.txt" then
        Except.ok
          ({ format := "text", hostsCreated := 2,
             errors := ["bad line 3"] } : ImportResult)
      else Except.error "boom")
      ([({ filename := "a.txt", content := FileData.text "10.0.0.7 web1" } : Upload)] ++
        ({ filename := "b.xml", content := FileData.text "not xml" } : Upload) ::
        ([] : List Upload))).hostsCreated =
      (importScan
        (fun v => if v.filename = "a.txt" then
        Except.ok
          ({ format := "text", hostsCreated := 2,
             errors := ["bad line 3"] } : ImportResult)
      else Except.error "boom")
        ([({ filename := "a.txt", content := FileData.text "10.0.0.7 web1" } : Upload)] ++
          ([] : List Upload))).hostsCreated ∧
    (importScan
      (fun v => if v.filename = "a.txt" then
        Except.ok
          ({ format := "text", hostsCreated := 2,
             errors := ["bad line 3"] } : ImportResult)
      else Except.error "boom")
      ([({ filename := "a.txt", content := FileData.text "10.0.0.7 web1" } : Upload)] ++
        ({ filename := "b.xml", content := FileData.text "not xml" } : Upload) ::
        ([] : List Upload))).errors =
      (List.map (fun x => (processUpload
        (fun v => if v.filename = "a.txt" then
        Except.ok
          ({ format := "text", hostsCreated := 2,
             errors := ["bad line 3"] } : ImportResult)
      else Except.error "boom") x).1.errors)
        [({ filename := "a.txt", content := FileData.text "10.0.0.7 web1" } : Upload)]).flatten ++
        ("b.xml" ++ ": " ++ "boom") ::
          (List.map (fun x => (processUpload
            (fun v => if v.filename = "a.txt" then
        Except.ok
          ({ format := "text", hostsCreated := 2,
             errors := ["bad line 3"] } : ImportResult)
      else Except.error "boom") x).1.errors)
            ([] : List Upload)).flatten) :=
  ⟨c10_batch_aggregation.1
      (fun v => if v.filename = "a.txt" then
        Except.ok
          ({ format := "text", hostsCreated := 2,
             errors := ["bad line 3"] } : ImportResult)
      else Except.error "boom")
      [({ filename := "a.txt", content := FileData.text "10.0.0.7 web1" } : Upload),
       ({ filename := "b.xml", content := FileData.text "not xml" } : Upload)],
   c10_batch_aggregation.2.1
      (fun v => if v.filename = "a.txt" then
        Except.ok
          ({ format := "text", hostsCreated := 2,
             errors := ["bad line 3"] } : ImportResult)
      else Except.error "boom")
      [({ filename := "a.txt", content := FileData.text "10.0.0.7 web1" } : Upload),
       ({ filename := "b.xml", content := FileData.text "not xml" } : Upload)],
   c10_batch_aggregation.2.2.2.2.2.2.2.2.2.2.2.1
      (fun v => if v.filename = "a.txt" then
        Except.ok
          ({ format := "text", hostsCreated := 2,
             errors := ["bad line 3"] } : ImportResult)
      else Except.error "boom")
      [({ filename := "a.txt", content := FileData.text "10.0.0.7 web1" } : Upload),
       ({ filename := "b.xml", content := FileData.text "not xml" } : Upload)],
   c10_batch_aggregation.2.2.2.2.2.2.2.2.2.2.2.2.1
      (fun v => if v.filename = "a.txt" then
        Except.ok
          ({ format := "text", hostsCreated := 2,
             errors := ["bad line 3"] } : ImportResult)
      else Except.error "boom")
      [({ filename := "a.txt", content := FileData.text "10.0.0.7 web1" } : Upload),
       ({ filename := "b.xml", content := FileData.text "not xml" } : Upload)] "text" ["unknown"] (by rfl),
   c10_batch_aggregation.2.2.2.2.2.2.2.2.2.2.2.2.2.1
      (fun v => if v.filename = "a.txt" then
        Except.ok
          ({ format := "text", hostsCreated := 2,
             errors := ["bad line 3"] } : ImportResult)
      else Except.error "boom")
      { filename := "b.xml", content := FileData.text "not xml" } "boom" (by rfl) (by rfl) (by rfl),
   c10_batch_aggregation.2.2.2.2.2.2.2.2.2.2.2.2.2.2
      (fun v => if v.filename = "a.txt" then
        Except.ok
          ({ format := "text", hostsCreated := 2,
             errors := ["bad line 3"] } : ImportResult)
      else Except.error "boom")
      [({ filename := "a.txt", content := FileData.text "10.0.0.7 web1" } : Upload)] ([] : List Upload)
      { filename := "b.xml", content := FileData.text "not xml" } "boom" (by rfl) (by rfl) (by rfl)⟩


end RedOpSync
